import Mathlib

/-!
Verification development for the tss-esapi excerpt: the FFI zeroization
engine (`src/tss-esapi/src/ffi/data_zeroize.rs`) and the `Context`
orchestration layer (`src/tss-esapi/src/context.rs`).

Machine integers of the source (u16/u32) are modelled as `Nat`; the
zeroizers only ever write the constant 0, so no overflow arithmetic occurs
and the modulus is irrelevant.  C unions are modelled by their byte layout:
a union whose variants fully alias (all 16-bit scalars at offset 0) becomes
a single `Nat` cell; the scheme unions, whose variants are a 16-bit
`hashAlg` at offset 0 optionally followed by a second 16-bit word at
offset 2 (`count` of TPMS_SCHEME_ECDAA, `kdf` of TPMS_SCHEME_XOR), become
two cells.  The two large unions of TPMT_PUBLIC (`parameters`, `unique`)
are modelled as a product of their variants: every claim below only ever
writes and reads the variant selected by the (single) decoded discriminant,
so variant aliasing is never observable in the stated properties.
-/

namespace TssEsapi

/-- TCG TPM 2.0 algorithm identifier constants.  Modelled from the spec:
the `interface_types::algorithm` enums and their `TryFrom` decoders are not
part of the excerpt; the variant set is exactly the one matched in
`data_zeroize.rs` and these are the standard TCG identifier values the
spec calls "discriminant values" (unlisted values are the spec's
"unrecognized/reserved" ones and fail to decode). -/
def TPM2_ALG_RSA : Nat := 0x0001

def TPM2_ALG_TDES : Nat := 0x0003

def TPM2_ALG_HMAC : Nat := 0x0005

def TPM2_ALG_AES : Nat := 0x0006

def TPM2_ALG_MGF1 : Nat := 0x0007

def TPM2_ALG_KEYEDHASH : Nat := 0x0008

def TPM2_ALG_XOR : Nat := 0x000A

def TPM2_ALG_NULL : Nat := 0x0010

def TPM2_ALG_SM4 : Nat := 0x0013

def TPM2_ALG_RSASSA : Nat := 0x0014

def TPM2_ALG_RSAES : Nat := 0x0015

def TPM2_ALG_RSAPSS : Nat := 0x0016

def TPM2_ALG_OAEP : Nat := 0x0017

def TPM2_ALG_ECDSA : Nat := 0x0018

def TPM2_ALG_ECDH : Nat := 0x0019

def TPM2_ALG_ECDAA : Nat := 0x001A

def TPM2_ALG_SM2 : Nat := 0x001B

def TPM2_ALG_ECSCHNORR : Nat := 0x001C

def TPM2_ALG_ECMQV : Nat := 0x001D

def TPM2_ALG_KDF1_SP800_56A : Nat := 0x0020

def TPM2_ALG_KDF2 : Nat := 0x0021

def TPM2_ALG_KDF1_SP800_108 : Nat := 0x0022

def TPM2_ALG_ECC : Nat := 0x0023

def TPM2_ALG_SYMCIPHER : Nat := 0x0025

def TPM2_ALG_CAMELLIA : Nat := 0x0026

/-- Variants of `SymmetricObject` as matched in `TPMT_SYM_DEF_OBJECT::ffi_data_zeroize`. -/
inductive SymmetricObject
  | Aes
  | Sm4
  | Camellia
  | Tdes
  | Null
deriving DecidableEq

/-- Modelled from the spec: decoder for the `TPMT_SYM_DEF_OBJECT` discriminant
(`SymmetricObject::try_from`). -/
def SymmetricObject.tryFrom (value : Nat) : Option SymmetricObject :=
  if value = TPM2_ALG_AES then some SymmetricObject.Aes
  else if value = TPM2_ALG_SM4 then some SymmetricObject.Sm4
  else if value = TPM2_ALG_CAMELLIA then some SymmetricObject.Camellia
  else if value = TPM2_ALG_TDES then some SymmetricObject.Tdes
  else if value = TPM2_ALG_NULL then some SymmetricObject.Null
  else none

/-- Variants of `PublicAlgorithm` as matched in `TPMT_PUBLIC::ffi_data_zeroize`. -/
inductive PublicAlgorithm
  | Rsa
  | KeyedHash
  | Ecc
  | SymCipher
deriving DecidableEq

/-- Modelled from the spec: decoder for the `TPMT_PUBLIC` discriminant
(`PublicAlgorithm::try_from`). -/
def PublicAlgorithm.tryFrom (value : Nat) : Option PublicAlgorithm :=
  if value = TPM2_ALG_RSA then some PublicAlgorithm.Rsa
  else if value = TPM2_ALG_KEYEDHASH then some PublicAlgorithm.KeyedHash
  else if value = TPM2_ALG_ECC then some PublicAlgorithm.Ecc
  else if value = TPM2_ALG_SYMCIPHER then some PublicAlgorithm.SymCipher
  else none

/-- Variants of `KeyedHashSchemeAlgorithm` as matched in
`TPMT_KEYEDHASH_SCHEME::ffi_data_zeroize`. -/
inductive KeyedHashSchemeAlgorithm
  | Xor
  | Hmac
  | Null
deriving DecidableEq

/-- Modelled from the spec: decoder for the `TPMT_KEYEDHASH_SCHEME` discriminant. -/
def KeyedHashSchemeAlgorithm.tryFrom (value : Nat) : Option KeyedHashSchemeAlgorithm :=
  if value = TPM2_ALG_XOR then some KeyedHashSchemeAlgorithm.Xor
  else if value = TPM2_ALG_HMAC then some KeyedHashSchemeAlgorithm.Hmac
  else if value = TPM2_ALG_NULL then some KeyedHashSchemeAlgorithm.Null
  else none

/-- Variants of `RsaSchemeAlgorithm` as matched in `TPMT_RSA_SCHEME::ffi_data_zeroize`. -/
inductive RsaSchemeAlgorithm
  | RsaSsa
  | RsaEs
  | RsaPss
  | Oaep
  | Null
deriving DecidableEq

/-- Modelled from the spec: decoder for the `TPMT_RSA_SCHEME` discriminant. -/
def RsaSchemeAlgorithm.tryFrom (value : Nat) : Option RsaSchemeAlgorithm :=
  if value = TPM2_ALG_RSASSA then some RsaSchemeAlgorithm.RsaSsa
  else if value = TPM2_ALG_RSAES then some RsaSchemeAlgorithm.RsaEs
  else if value = TPM2_ALG_RSAPSS then some RsaSchemeAlgorithm.RsaPss
  else if value = TPM2_ALG_OAEP then some RsaSchemeAlgorithm.Oaep
  else if value = TPM2_ALG_NULL then some RsaSchemeAlgorithm.Null
  else none

/-- Variants of `EccSchemeAlgorithm` as matched in `TPMT_ECC_SCHEME::ffi_data_zeroize`. -/
inductive EccSchemeAlgorithm
  | EcDsa
  | EcDh
  | EcDaa
  | Sm2
  | EcSchnorr
  | EcMqv
  | Null
deriving DecidableEq

/-- Modelled from the spec: decoder for the `TPMT_ECC_SCHEME` discriminant. -/
def EccSchemeAlgorithm.tryFrom (value : Nat) : Option EccSchemeAlgorithm :=
  if value = TPM2_ALG_ECDSA then some EccSchemeAlgorithm.EcDsa
  else if value = TPM2_ALG_ECDH then some EccSchemeAlgorithm.EcDh
  else if value = TPM2_ALG_ECDAA then some EccSchemeAlgorithm.EcDaa
  else if value = TPM2_ALG_SM2 then some EccSchemeAlgorithm.Sm2
  else if value = TPM2_ALG_ECSCHNORR then some EccSchemeAlgorithm.EcSchnorr
  else if value = TPM2_ALG_ECMQV then some EccSchemeAlgorithm.EcMqv
  else if value = TPM2_ALG_NULL then some EccSchemeAlgorithm.Null
  else none

/-- Variants of `KeyDerivationFunction` as matched in `TPMT_KDF_SCHEME::ffi_data_zeroize`. -/
inductive KeyDerivationFunction
  | Kdf1Sp800_56a
  | Kdf2
  | Kdf1Sp800_108
  | Mgf1
  | Null
deriving DecidableEq

/-- Modelled from the spec: decoder for the `TPMT_KDF_SCHEME` discriminant. -/
def KeyDerivationFunction.tryFrom (value : Nat) : Option KeyDerivationFunction :=
  if value = TPM2_ALG_KDF1_SP800_56A then some KeyDerivationFunction.Kdf1Sp800_56a
  else if value = TPM2_ALG_KDF2 then some KeyDerivationFunction.Kdf2
  else if value = TPM2_ALG_KDF1_SP800_108 then some KeyDerivationFunction.Kdf1Sp800_108
  else if value = TPM2_ALG_MGF1 then some KeyDerivationFunction.Mgf1
  else if value = TPM2_ALG_NULL then some KeyDerivationFunction.Null
  else none

/-- TPM2B_DIGEST: length-prefixed byte buffer (`size`, `buffer`).  The Rust
`Zeroize` on the backing array zeroes every byte of the full array, so the
model keeps the buffer as a list whose every element is overwritten. -/
structure TPM2B_DIGEST where
  size : Nat
  buffer : List Nat
deriving DecidableEq

/-- Zeroizer generated by `implement_ffi_data_zeroizer_trait_for_buffer_type!(TPM2B_DIGEST)`:
`self.size.zeroize(); self.buffer.zeroize();`. -/
def TPM2B_DIGEST.ffi_data_zeroize (b : TPM2B_DIGEST) : TPM2B_DIGEST :=
  { size := 0, buffer := b.buffer.map fun _ => 0 }

/-- TPM2B_PUBLIC_KEY_RSA: length-prefixed byte buffer. -/
structure TPM2B_PUBLIC_KEY_RSA where
  size : Nat
  buffer : List Nat
deriving DecidableEq

/-- Zeroizer generated by `implement_ffi_data_zeroizer_trait_for_buffer_type!(TPM2B_PUBLIC_KEY_RSA)`. -/
def TPM2B_PUBLIC_KEY_RSA.ffi_data_zeroize (b : TPM2B_PUBLIC_KEY_RSA) : TPM2B_PUBLIC_KEY_RSA :=
  { size := 0, buffer := b.buffer.map fun _ => 0 }

/-- TPM2B_ECC_PARAMETER: length-prefixed byte buffer. -/
structure TPM2B_ECC_PARAMETER where
  size : Nat
  buffer : List Nat
deriving DecidableEq

/-- Zeroizer generated by `implement_ffi_data_zeroizer_trait_for_buffer_type!(TPM2B_ECC_PARAMETER)`. -/
def TPM2B_ECC_PARAMETER.ffi_data_zeroize (b : TPM2B_ECC_PARAMETER) : TPM2B_ECC_PARAMETER :=
  { size := 0, buffer := b.buffer.map fun _ => 0 }

/-- TPMS_ECC_POINT with fields `x`, `y`. -/
structure TPMS_ECC_POINT where
  x : TPM2B_ECC_PARAMETER
  y : TPM2B_ECC_PARAMETER
deriving DecidableEq

/-- Zeroizer generated by
`implement_ffi_data_zeroizer_trait_for_structured_named_fields_type!(TPMS_ECC_POINT, x, y)`. -/
def TPMS_ECC_POINT.ffi_data_zeroize (p : TPMS_ECC_POINT) : TPMS_ECC_POINT :=
  { x := p.x.ffi_data_zeroize, y := p.y.ffi_data_zeroize }

/-- TPMT_SYM_DEF_OBJECT.  `keyBits` models the whole TPMU_SYM_KEY_BITS union
region and `mode` the whole TPMU_SYM_MODE union region: every variant of
either union is a single 16-bit scalar at offset 0, so all variants fully
alias one cell. -/
structure TPMT_SYM_DEF_OBJECT where
  algorithm : Nat
  keyBits : Nat
  mode : Nat
deriving DecidableEq

/-- TPMT_SYM_DEF_OBJECT::ffi_data_zeroize: decode `algorithm`; for
Aes/Sm4/Camellia zeroize the selected `keyBits`/`mode` union member (which
occupies the whole cell); Null and Tdes arms zeroize nothing; the trailing
unconditional `self.algorithm.zeroize()` is folded into each branch. -/
def TPMT_SYM_DEF_OBJECT.ffi_data_zeroize (v : TPMT_SYM_DEF_OBJECT) : TPMT_SYM_DEF_OBJECT :=
  match SymmetricObject.tryFrom v.algorithm with
  | some SymmetricObject.Aes => { algorithm := 0, keyBits := 0, mode := 0 }
  | some SymmetricObject.Sm4 => { algorithm := 0, keyBits := 0, mode := 0 }
  | some SymmetricObject.Camellia => { algorithm := 0, keyBits := 0, mode := 0 }
  | some SymmetricObject.Null => { v with algorithm := 0 }
  | some SymmetricObject.Tdes => { v with algorithm := 0 }
  | none => { v with algorithm := 0 }

/-- TPMU_ASYM_SCHEME (the `details` union of TPMT_RSA_SCHEME and
TPMT_ECC_SCHEME).  `hashAlgCell` is the 16-bit word at offset 0 (the
`hashAlg` field of every TPMS_SCHEME_* variant, all aliased);
`countCell` is the 16-bit word at offset 2 (the `count` field of
TPMS_SCHEME_ECDAA; dead bytes for the other variants). -/
structure TPMU_ASYM_SCHEME where
  hashAlgCell : Nat
  countCell : Nat
deriving DecidableEq

/-- Effect of `TPMS_SCHEME_HASH::ffi_data_zeroize` (zeroize `hashAlg`) on the
union region, for any of the single-word variants (rsassa, rsapss, oaep,
ecdsa, ecdh, sm2, ecschnorr, ecmqv). -/
def TPMU_ASYM_SCHEME.zeroizeHashVariant (u : TPMU_ASYM_SCHEME) : TPMU_ASYM_SCHEME :=
  { u with hashAlgCell := 0 }

/-- Effect of `TPMS_SCHEME_ECDAA::ffi_data_zeroize` (zeroize `hashAlg` and
`count`) on the union region. -/
def TPMU_ASYM_SCHEME.zeroizeEcdaa (_u : TPMU_ASYM_SCHEME) : TPMU_ASYM_SCHEME :=
  { hashAlgCell := 0, countCell := 0 }

/-- TPMT_RSA_SCHEME with discriminant `scheme` and union `details`. -/
structure TPMT_RSA_SCHEME where
  scheme : Nat
  details : TPMU_ASYM_SCHEME
deriving DecidableEq

/-- TPMT_RSA_SCHEME::ffi_data_zeroize: decode `scheme`; RsaSsa/RsaPss/Oaep
zeroize their TPMS_SCHEME_HASH member; RsaEs and Null arms zeroize nothing;
the trailing unconditional `self.scheme.zeroize()` is folded into each branch. -/
def TPMT_RSA_SCHEME.ffi_data_zeroize (v : TPMT_RSA_SCHEME) : TPMT_RSA_SCHEME :=
  match RsaSchemeAlgorithm.tryFrom v.scheme with
  | some RsaSchemeAlgorithm.RsaSsa => { scheme := 0, details := v.details.zeroizeHashVariant }
  | some RsaSchemeAlgorithm.RsaEs => { v with scheme := 0 }
  | some RsaSchemeAlgorithm.RsaPss => { scheme := 0, details := v.details.zeroizeHashVariant }
  | some RsaSchemeAlgorithm.Oaep => { scheme := 0, details := v.details.zeroizeHashVariant }
  | some RsaSchemeAlgorithm.Null => { v with scheme := 0 }
  | none => { v with scheme := 0 }

/-- TPMT_ECC_SCHEME with discriminant `scheme` and union `details`. -/
structure TPMT_ECC_SCHEME where
  scheme : Nat
  details : TPMU_ASYM_SCHEME
deriving DecidableEq

/-- TPMT_ECC_SCHEME::ffi_data_zeroize: decode `scheme`; every non-Null variant
zeroizes its member (EcDaa also zeroizes `count`); the trailing unconditional
`self.scheme.zeroize()` is folded into each branch. -/
def TPMT_ECC_SCHEME.ffi_data_zeroize (v : TPMT_ECC_SCHEME) : TPMT_ECC_SCHEME :=
  match EccSchemeAlgorithm.tryFrom v.scheme with
  | some EccSchemeAlgorithm.EcDsa => { scheme := 0, details := v.details.zeroizeHashVariant }
  | some EccSchemeAlgorithm.EcDh => { scheme := 0, details := v.details.zeroizeHashVariant }
  | some EccSchemeAlgorithm.EcDaa => { scheme := 0, details := v.details.zeroizeEcdaa }
  | some EccSchemeAlgorithm.Sm2 => { scheme := 0, details := v.details.zeroizeHashVariant }
  | some EccSchemeAlgorithm.EcSchnorr => { scheme := 0, details := v.details.zeroizeHashVariant }
  | some EccSchemeAlgorithm.EcMqv => { scheme := 0, details := v.details.zeroizeHashVariant }
  | some EccSchemeAlgorithm.Null => { v with scheme := 0 }
  | none => { v with scheme := 0 }

/-- TPMU_KDF_SCHEME: every variant (kdf1_sp800_56a, kdf2, kdf1_sp800_108,
mgf1) is a TPMS_SCHEME_HASH, a single 16-bit word at offset 0, so the union
is one fully aliased cell. -/
structure TPMU_KDF_SCHEME where
  hashAlgCell : Nat
deriving DecidableEq

/-- Effect of `TPMS_SCHEME_HASH::ffi_data_zeroize` on the one-cell KDF union. -/
def TPMU_KDF_SCHEME.zeroizeHashVariant (_u : TPMU_KDF_SCHEME) : TPMU_KDF_SCHEME :=
  { hashAlgCell := 0 }

/-- TPMT_KDF_SCHEME with discriminant `scheme` and union `details`. -/
structure TPMT_KDF_SCHEME where
  scheme : Nat
  details : TPMU_KDF_SCHEME
deriving DecidableEq

/-- TPMT_KDF_SCHEME::ffi_data_zeroize: decode `scheme`; every non-Null variant
zeroizes its member; the trailing unconditional `self.scheme.zeroize()` is
folded into each branch. -/
def TPMT_KDF_SCHEME.ffi_data_zeroize (v : TPMT_KDF_SCHEME) : TPMT_KDF_SCHEME :=
  match KeyDerivationFunction.tryFrom v.scheme with
  | some KeyDerivationFunction.Kdf1Sp800_56a => { scheme := 0, details := v.details.zeroizeHashVariant }
  | some KeyDerivationFunction.Kdf2 => { scheme := 0, details := v.details.zeroizeHashVariant }
  | some KeyDerivationFunction.Kdf1Sp800_108 => { scheme := 0, details := v.details.zeroizeHashVariant }
  | some KeyDerivationFunction.Mgf1 => { scheme := 0, details := v.details.zeroizeHashVariant }
  | some KeyDerivationFunction.Null => { v with scheme := 0 }
  | none => { v with scheme := 0 }

/-- TPMU_SCHEME_KEYEDHASH (the `details` union of TPMT_KEYEDHASH_SCHEME).
`hashAlgCell` is the 16-bit word at offset 0 (`hashAlg` of both the hmac and
exclusiveOr variants, aliased); `kdfCell` is the 16-bit word at offset 2
(`kdf` of TPMS_SCHEME_XOR). -/
structure TPMU_SCHEME_KEYEDHASH where
  hashAlgCell : Nat
  kdfCell : Nat
deriving DecidableEq

/-- Effect of `TPMS_SCHEME_HMAC::ffi_data_zeroize` (zeroize `hashAlg`) on the union region. -/
def TPMU_SCHEME_KEYEDHASH.zeroizeHmac (u : TPMU_SCHEME_KEYEDHASH) : TPMU_SCHEME_KEYEDHASH :=
  { u with hashAlgCell := 0 }

/-- Effect of `TPMS_SCHEME_XOR::ffi_data_zeroize` (zeroize `hashAlg` and `kdf`)
on the union region. -/
def TPMU_SCHEME_KEYEDHASH.zeroizeExclusiveOr (_u : TPMU_SCHEME_KEYEDHASH) : TPMU_SCHEME_KEYEDHASH :=
  { hashAlgCell := 0, kdfCell := 0 }

/-- TPMT_KEYEDHASH_SCHEME with discriminant `scheme` and union `details`. -/
structure TPMT_KEYEDHASH_SCHEME where
  scheme : Nat
  details : TPMU_SCHEME_KEYEDHASH
deriving DecidableEq

/-- TPMT_KEYEDHASH_SCHEME::ffi_data_zeroize: decode `scheme`; Xor and Hmac
zeroize their member; Null zeroizes nothing; the trailing unconditional
`self.scheme.zeroize()` is folded into each branch. -/
def TPMT_KEYEDHASH_SCHEME.ffi_data_zeroize (v : TPMT_KEYEDHASH_SCHEME) : TPMT_KEYEDHASH_SCHEME :=
  match KeyedHashSchemeAlgorithm.tryFrom v.scheme with
  | some KeyedHashSchemeAlgorithm.Xor => { scheme := 0, details := v.details.zeroizeExclusiveOr }
  | some KeyedHashSchemeAlgorithm.Hmac => { scheme := 0, details := v.details.zeroizeHmac }
  | some KeyedHashSchemeAlgorithm.Null => { v with scheme := 0 }
  | none => { v with scheme := 0 }

/-- TPMS_KEYEDHASH_PARMS with field `scheme`. -/
structure TPMS_KEYEDHASH_PARMS where
  scheme : TPMT_KEYEDHASH_SCHEME
deriving DecidableEq

/-- Zeroizer generated by
`implement_ffi_data_zeroizer_trait_for_structured_named_fields_type!(TPMS_KEYEDHASH_PARMS, scheme)`. -/
def TPMS_KEYEDHASH_PARMS.ffi_data_zeroize (p : TPMS_KEYEDHASH_PARMS) : TPMS_KEYEDHASH_PARMS :=
  { scheme := p.scheme.ffi_data_zeroize }

/-- TPMS_SYMCIPHER_PARMS with field `sym`. -/
structure TPMS_SYMCIPHER_PARMS where
  sym : TPMT_SYM_DEF_OBJECT
deriving DecidableEq

/-- Zeroizer generated by
`implement_ffi_data_zeroizer_trait_for_structured_named_fields_type!(TPMS_SYMCIPHER_PARMS, sym)`. -/
def TPMS_SYMCIPHER_PARMS.ffi_data_zeroize (p : TPMS_SYMCIPHER_PARMS) : TPMS_SYMCIPHER_PARMS :=
  { sym := p.sym.ffi_data_zeroize }

/-- TPMS_RSA_PARMS with fields `symmetric`, `scheme`, `keyBits`, `exponent`. -/
structure TPMS_RSA_PARMS where
  symmetric : TPMT_SYM_DEF_OBJECT
  scheme : TPMT_RSA_SCHEME
  keyBits : Nat
  exponent : Nat
deriving DecidableEq

/-- TPMS_RSA_PARMS::ffi_data_zeroize from the source: recursive zeroize of
`symmetric` and `scheme`, scalar zeroize of `keyBits` and `exponent`. -/
def TPMS_RSA_PARMS.ffi_data_zeroize (p : TPMS_RSA_PARMS) : TPMS_RSA_PARMS :=
  { symmetric := p.symmetric.ffi_data_zeroize
    scheme := p.scheme.ffi_data_zeroize
    keyBits := 0
    exponent := 0 }

/-- TPMS_ECC_PARMS with fields `symmetric`, `scheme`, `curveID`, `kdf`. -/
structure TPMS_ECC_PARMS where
  symmetric : TPMT_SYM_DEF_OBJECT
  scheme : TPMT_ECC_SCHEME
  curveID : Nat
  kdf : TPMT_KDF_SCHEME
deriving DecidableEq

/-- TPMS_ECC_PARMS::ffi_data_zeroize from the source: recursive zeroize of
`symmetric`, `scheme` and `kdf`, scalar zeroize of `curveID`. -/
def TPMS_ECC_PARMS.ffi_data_zeroize (p : TPMS_ECC_PARMS) : TPMS_ECC_PARMS :=
  { symmetric := p.symmetric.ffi_data_zeroize
    scheme := p.scheme.ffi_data_zeroize
    curveID := 0
    kdf := p.kdf.ffi_data_zeroize }

/-- TPMU_PUBLIC_PARMS (the `parameters` union of TPMT_PUBLIC), modelled as a
product of its variants; the zeroizer only touches the variant selected by
the decoded `type_` discriminant. -/
structure TPMU_PUBLIC_PARMS where
  keyedHashDetail : TPMS_KEYEDHASH_PARMS
  symDetail : TPMS_SYMCIPHER_PARMS
  rsaDetail : TPMS_RSA_PARMS
  eccDetail : TPMS_ECC_PARMS
deriving DecidableEq

/-- TPMU_PUBLIC_ID (the `unique` union of TPMT_PUBLIC), modelled as a product
of its variants; the zeroizer only touches the variant selected by the
decoded `type_` discriminant. -/
structure TPMU_PUBLIC_ID where
  keyedHash : TPM2B_DIGEST
  sym : TPM2B_DIGEST
  rsa : TPM2B_PUBLIC_KEY_RSA
  ecc : TPMS_ECC_POINT
deriving DecidableEq

/-- TPMT_PUBLIC with discriminant `type_`, scalar fields `nameAlg` and
`objectAttributes`, buffer `authPolicy`, and the two unions. -/
structure TPMT_PUBLIC where
  type_ : Nat
  nameAlg : Nat
  objectAttributes : Nat
  authPolicy : TPM2B_DIGEST
  parameters : TPMU_PUBLIC_PARMS
  unique : TPMU_PUBLIC_ID
deriving DecidableEq

/-- TPMT_PUBLIC::ffi_data_zeroize: decode `type_`; on success zeroize
`objectAttributes`, `nameAlg`, `authPolicy`, the selected `parameters`
member and the selected `unique` member, and (still inside the success
branch, as in the source) zeroize `type_`; when decoding fails nothing at
all is zeroized. -/
def TPMT_PUBLIC.ffi_data_zeroize (p : TPMT_PUBLIC) : TPMT_PUBLIC :=
  match PublicAlgorithm.tryFrom p.type_ with
  | some PublicAlgorithm.Rsa =>
    { type_ := 0
      nameAlg := 0
      objectAttributes := 0
      authPolicy := p.authPolicy.ffi_data_zeroize
      parameters := { p.parameters with rsaDetail := p.parameters.rsaDetail.ffi_data_zeroize }
      unique := { p.unique with rsa := p.unique.rsa.ffi_data_zeroize } }
  | some PublicAlgorithm.KeyedHash =>
    { type_ := 0
      nameAlg := 0
      objectAttributes := 0
      authPolicy := p.authPolicy.ffi_data_zeroize
      parameters := { p.parameters with keyedHashDetail := p.parameters.keyedHashDetail.ffi_data_zeroize }
      unique := { p.unique with keyedHash := p.unique.keyedHash.ffi_data_zeroize } }
  | some PublicAlgorithm.Ecc =>
    { type_ := 0
      nameAlg := 0
      objectAttributes := 0
      authPolicy := p.authPolicy.ffi_data_zeroize
      parameters := { p.parameters with eccDetail := p.parameters.eccDetail.ffi_data_zeroize }
      unique := { p.unique with ecc := p.unique.ecc.ffi_data_zeroize } }
  | some PublicAlgorithm.SymCipher =>
    { type_ := 0
      nameAlg := 0
      objectAttributes := 0
      authPolicy := p.authPolicy.ffi_data_zeroize
      parameters := { p.parameters with symDetail := p.parameters.symDetail.ffi_data_zeroize }
      unique := { p.unique with sym := p.unique.sym.ffi_data_zeroize } }
  | none => p

/-- TPM2B_DATA: length-prefixed byte buffer. -/
structure TPM2B_DATA where
  size : Nat
  buffer : List Nat
deriving DecidableEq

/-- Zeroizer generated by `implement_ffi_data_zeroizer_trait_for_buffer_type!(TPM2B_DATA)`. -/
def TPM2B_DATA.ffi_data_zeroize (b : TPM2B_DATA) : TPM2B_DATA :=
  { size := 0, buffer := b.buffer.map fun _ => 0 }

/-- TPM2B_ENCRYPTED_SECRET: length-prefixed byte buffer whose array field is
called `secret`. -/
structure TPM2B_ENCRYPTED_SECRET where
  size : Nat
  secret : List Nat
deriving DecidableEq

/-- Zeroizer generated by
`implement_ffi_data_zeroizer_trait_for_named_field_buffer_type!(TPM2B_ENCRYPTED_SECRET, secret)`. -/
def TPM2B_ENCRYPTED_SECRET.ffi_data_zeroize (b : TPM2B_ENCRYPTED_SECRET) : TPM2B_ENCRYPTED_SECRET :=
  { size := 0, secret := b.secret.map fun _ => 0 }

/-- TPM2B_ID_OBJECT: length-prefixed byte buffer whose array field is called
`credential`. -/
structure TPM2B_ID_OBJECT where
  size : Nat
  credential : List Nat
deriving DecidableEq

/-- Zeroizer generated by
`implement_ffi_data_zeroizer_trait_for_named_field_buffer_type!(TPM2B_ID_OBJECT, credential)`. -/
def TPM2B_ID_OBJECT.ffi_data_zeroize (b : TPM2B_ID_OBJECT) : TPM2B_ID_OBJECT :=
  { size := 0, credential := b.credential.map fun _ => 0 }

/-- TPM2B_IV: length-prefixed byte buffer. -/
structure TPM2B_IV where
  size : Nat
  buffer : List Nat
deriving DecidableEq

/-- Zeroizer generated by `implement_ffi_data_zeroizer_trait_for_buffer_type!(TPM2B_IV)`. -/
def TPM2B_IV.ffi_data_zeroize (b : TPM2B_IV) : TPM2B_IV :=
  { size := 0, buffer := b.buffer.map fun _ => 0 }

/-- TPM2B_MAX_BUFFER: length-prefixed byte buffer. -/
structure TPM2B_MAX_BUFFER where
  size : Nat
  buffer : List Nat
deriving DecidableEq

/-- Zeroizer generated by `implement_ffi_data_zeroizer_trait_for_buffer_type!(TPM2B_MAX_BUFFER)`. -/
def TPM2B_MAX_BUFFER.ffi_data_zeroize (b : TPM2B_MAX_BUFFER) : TPM2B_MAX_BUFFER :=
  { size := 0, buffer := b.buffer.map fun _ => 0 }

/-- TPM2B_MAX_NV_BUFFER: length-prefixed byte buffer. -/
structure TPM2B_MAX_NV_BUFFER where
  size : Nat
  buffer : List Nat
deriving DecidableEq

/-- Zeroizer generated by
`implement_ffi_data_zeroizer_trait_for_buffer_type!(TPM2B_MAX_NV_BUFFER)`. -/
def TPM2B_MAX_NV_BUFFER.ffi_data_zeroize (b : TPM2B_MAX_NV_BUFFER) : TPM2B_MAX_NV_BUFFER :=
  { size := 0, buffer := b.buffer.map fun _ => 0 }

/-- TPM2B_PRIVATE: length-prefixed byte buffer. -/
structure TPM2B_PRIVATE where
  size : Nat
  buffer : List Nat
deriving DecidableEq

/-- Zeroizer generated by `implement_ffi_data_zeroizer_trait_for_buffer_type!(TPM2B_PRIVATE)`. -/
def TPM2B_PRIVATE.ffi_data_zeroize (b : TPM2B_PRIVATE) : TPM2B_PRIVATE :=
  { size := 0, buffer := b.buffer.map fun _ => 0 }

/-- TPM2B_PRIVATE_KEY_RSA: length-prefixed byte buffer. -/
structure TPM2B_PRIVATE_KEY_RSA where
  size : Nat
  buffer : List Nat
deriving DecidableEq

/-- Zeroizer generated by
`implement_ffi_data_zeroizer_trait_for_buffer_type!(TPM2B_PRIVATE_KEY_RSA)`. -/
def TPM2B_PRIVATE_KEY_RSA.ffi_data_zeroize (b : TPM2B_PRIVATE_KEY_RSA) : TPM2B_PRIVATE_KEY_RSA :=
  { size := 0, buffer := b.buffer.map fun _ => 0 }

/-- TPM2B_PRIVATE_VENDOR_SPECIFIC: length-prefixed byte buffer. -/
structure TPM2B_PRIVATE_VENDOR_SPECIFIC where
  size : Nat
  buffer : List Nat
deriving DecidableEq

/-- Zeroizer generated by
`implement_ffi_data_zeroizer_trait_for_buffer_type!(TPM2B_PRIVATE_VENDOR_SPECIFIC)`. -/
def TPM2B_PRIVATE_VENDOR_SPECIFIC.ffi_data_zeroize (b : TPM2B_PRIVATE_VENDOR_SPECIFIC) :
    TPM2B_PRIVATE_VENDOR_SPECIFIC :=
  { size := 0, buffer := b.buffer.map fun _ => 0 }

/-- TPM2B_SENSITIVE_DATA: length-prefixed byte buffer. -/
structure TPM2B_SENSITIVE_DATA where
  size : Nat
  buffer : List Nat
deriving DecidableEq

/-- Zeroizer generated by
`implement_ffi_data_zeroizer_trait_for_buffer_type!(TPM2B_SENSITIVE_DATA)`. -/
def TPM2B_SENSITIVE_DATA.ffi_data_zeroize (b : TPM2B_SENSITIVE_DATA) : TPM2B_SENSITIVE_DATA :=
  { size := 0, buffer := b.buffer.map fun _ => 0 }

/-- TPM2B_SYM_KEY: length-prefixed byte buffer. -/
structure TPM2B_SYM_KEY where
  size : Nat
  buffer : List Nat
deriving DecidableEq

/-- Zeroizer generated by `implement_ffi_data_zeroizer_trait_for_buffer_type!(TPM2B_SYM_KEY)`. -/
def TPM2B_SYM_KEY.ffi_data_zeroize (b : TPM2B_SYM_KEY) : TPM2B_SYM_KEY :=
  { size := 0, buffer := b.buffer.map fun _ => 0 }

/-- TPM2B_NAME: length-prefixed byte buffer whose array field is called `name`. -/
structure TPM2B_NAME where
  size : Nat
  name : List Nat
deriving DecidableEq

/-- Zeroizer generated by
`implement_ffi_data_zeroizer_trait_for_named_field_buffer_type!(TPM2B_NAME, name)`. -/
def TPM2B_NAME.ffi_data_zeroize (b : TPM2B_NAME) : TPM2B_NAME :=
  ⟨0, b.name.map fun _ => 0⟩

/-- TPMS_SENSITIVE_CREATE with fields `userAuth` (a TPM2B_AUTH, identical to
TPM2B_DIGEST) and `data`. -/
structure TPMS_SENSITIVE_CREATE where
  userAuth : TPM2B_DIGEST
  data : TPM2B_SENSITIVE_DATA
deriving DecidableEq

/-- Zeroizer generated by
`implement_ffi_data_zeroizer_trait_for_structured_named_fields_type!(TPMS_SENSITIVE_CREATE, userAuth, data)`. -/
def TPMS_SENSITIVE_CREATE.ffi_data_zeroize (p : TPMS_SENSITIVE_CREATE) : TPMS_SENSITIVE_CREATE :=
  { userAuth := p.userAuth.ffi_data_zeroize, data := p.data.ffi_data_zeroize }

/-- TPMS_PCR_SELECTION with fields `hash`, `sizeofSelect` and the `pcrSelect`
byte array. -/
structure TPMS_PCR_SELECTION where
  hash : Nat
  sizeofSelect : Nat
  pcrSelect : List Nat
deriving DecidableEq

/-- Zeroizer generated by
`implement_ffi_data_zeroizer_trait_for_named_fields_type!(TPMS_PCR_SELECTION, hash, sizeofSelect, pcrSelect)`. -/
def TPMS_PCR_SELECTION.ffi_data_zeroize (p : TPMS_PCR_SELECTION) : TPMS_PCR_SELECTION :=
  { hash := 0, sizeofSelect := 0, pcrSelect := p.pcrSelect.map fun _ => 0 }

/-- TPML_PCR_SELECTION with the `count` field and the `pcrSelections` array. -/
structure TPML_PCR_SELECTION where
  count : Nat
  pcrSelections : List TPMS_PCR_SELECTION
deriving DecidableEq

/-- TPML_PCR_SELECTION::ffi_data_zeroize from the source: zeroize `count`
and every element of `pcrSelections`. -/
def TPML_PCR_SELECTION.ffi_data_zeroize (l : TPML_PCR_SELECTION) : TPML_PCR_SELECTION :=
  { count := 0, pcrSelections := l.pcrSelections.map TPMS_PCR_SELECTION.ffi_data_zeroize }

/-- TPMS_CREATION_DATA with its seven fields. -/
structure TPMS_CREATION_DATA where
  pcrSelect : TPML_PCR_SELECTION
  pcrDigest : TPM2B_DIGEST
  locality : Nat
  parentNameAlg : Nat
  parentName : TPM2B_NAME
  parentQualifiedName : TPM2B_NAME
  outsideInfo : TPM2B_DATA
deriving DecidableEq

/-- TPMS_CREATION_DATA::ffi_data_zeroize from the source: recursive zeroize
of the structured fields, scalar zeroize of `locality` and `parentNameAlg`. -/
def TPMS_CREATION_DATA.ffi_data_zeroize (p : TPMS_CREATION_DATA) : TPMS_CREATION_DATA :=
  { pcrSelect := p.pcrSelect.ffi_data_zeroize
    pcrDigest := p.pcrDigest.ffi_data_zeroize
    locality := 0
    parentNameAlg := 0
    parentName := p.parentName.ffi_data_zeroize
    parentQualifiedName := p.parentQualifiedName.ffi_data_zeroize
    outsideInfo := p.outsideInfo.ffi_data_zeroize }

/-- TPM2B_CREATION_DATA: size-prefixed wrapper around TPMS_CREATION_DATA. -/
structure TPM2B_CREATION_DATA where
  size : Nat
  creationData : TPMS_CREATION_DATA
deriving DecidableEq

/-- Zeroizer generated by
`implement_ffi_data_zeroizer_trait_for_named_field_structured_buffer_type!(TPM2B_CREATION_DATA, creationData)`. -/
def TPM2B_CREATION_DATA.ffi_data_zeroize (b : TPM2B_CREATION_DATA) : TPM2B_CREATION_DATA :=
  { size := 0, creationData := b.creationData.ffi_data_zeroize }

/-- TPM2B_SENSITIVE_CREATE: size-prefixed wrapper around TPMS_SENSITIVE_CREATE. -/
structure TPM2B_SENSITIVE_CREATE where
  size : Nat
  sensitive : TPMS_SENSITIVE_CREATE
deriving DecidableEq

/-- Zeroizer generated by
`implement_ffi_data_zeroizer_trait_for_named_field_structured_buffer_type!(TPM2B_SENSITIVE_CREATE, sensitive)`. -/
def TPM2B_SENSITIVE_CREATE.ffi_data_zeroize (b : TPM2B_SENSITIVE_CREATE) : TPM2B_SENSITIVE_CREATE :=
  { size := 0, sensitive := b.sensitive.ffi_data_zeroize }

/-- TPM2B_PUBLIC: size-prefixed wrapper around TPMT_PUBLIC (`publicArea`). -/
structure TPM2B_PUBLIC where
  size : Nat
  publicArea : TPMT_PUBLIC
deriving DecidableEq

/-- Zeroizer generated by
`implement_ffi_data_zeroizer_trait_for_named_field_structured_buffer_type!(TPM2B_PUBLIC, publicArea)`. -/
def TPM2B_PUBLIC.ffi_data_zeroize (b : TPM2B_PUBLIC) : TPM2B_PUBLIC :=
  { size := 0, publicArea := b.publicArea.ffi_data_zeroize }

/-- Standalone TPMS_SCHEME_HASH structure (also covering TPMS_SCHEME_HMAC,
which the source notes is identical). -/
structure TPMS_SCHEME_HASH where
  hashAlg : Nat
deriving DecidableEq

/-- Zeroizer generated by
`implement_ffi_data_zeroizer_trait_for_named_fields_type!(TPMS_SCHEME_HASH, hashAlg)`. -/
def TPMS_SCHEME_HASH.ffi_data_zeroize (_p : TPMS_SCHEME_HASH) : TPMS_SCHEME_HASH :=
  { hashAlg := 0 }

/-- Standalone TPMS_SCHEME_XOR structure. -/
structure TPMS_SCHEME_XOR where
  hashAlg : Nat
  kdf : Nat
deriving DecidableEq

/-- Zeroizer generated by
`implement_ffi_data_zeroizer_trait_for_named_fields_type!(TPMS_SCHEME_XOR, hashAlg, kdf)`. -/
def TPMS_SCHEME_XOR.ffi_data_zeroize (_p : TPMS_SCHEME_XOR) : TPMS_SCHEME_XOR :=
  { hashAlg := 0, kdf := 0 }

/-- Standalone TPMS_SCHEME_ECDAA structure. -/
structure TPMS_SCHEME_ECDAA where
  hashAlg : Nat
  count : Nat
deriving DecidableEq

/-- Zeroizer generated by
`implement_ffi_data_zeroizer_trait_for_named_fields_type!(TPMS_SCHEME_ECDAA, hashAlg, count)`. -/
def TPMS_SCHEME_ECDAA.ffi_data_zeroize (_p : TPMS_SCHEME_ECDAA) : TPMS_SCHEME_ECDAA :=
  { hashAlg := 0, count := 0 }

/-- TPMT_TK_CREATION ticket: tag, issuing hierarchy and inner digest. -/
structure TPMT_TK_CREATION where
  tag : Nat
  hierarchy : Nat
  digest : TPM2B_DIGEST
deriving DecidableEq

/-- Zeroizer generated by
`implement_ffi_data_zeroizer_trait_for_ticket_type!(TPMT_TK_CREATION)`. -/
def TPMT_TK_CREATION.ffi_data_zeroize (t : TPMT_TK_CREATION) : TPMT_TK_CREATION :=
  { tag := 0, hierarchy := 0, digest := t.digest.ffi_data_zeroize }

/-- TPMT_TK_VERIFIED ticket. -/
structure TPMT_TK_VERIFIED where
  tag : Nat
  hierarchy : Nat
  digest : TPM2B_DIGEST
deriving DecidableEq

/-- Zeroizer generated by
`implement_ffi_data_zeroizer_trait_for_ticket_type!(TPMT_TK_VERIFIED)`. -/
def TPMT_TK_VERIFIED.ffi_data_zeroize (t : TPMT_TK_VERIFIED) : TPMT_TK_VERIFIED :=
  { tag := 0, hierarchy := 0, digest := t.digest.ffi_data_zeroize }

/-- TPMT_TK_AUTH ticket. -/
structure TPMT_TK_AUTH where
  tag : Nat
  hierarchy : Nat
  digest : TPM2B_DIGEST
deriving DecidableEq

/-- Zeroizer generated by
`implement_ffi_data_zeroizer_trait_for_ticket_type!(TPMT_TK_AUTH)`. -/
def TPMT_TK_AUTH.ffi_data_zeroize (t : TPMT_TK_AUTH) : TPMT_TK_AUTH :=
  { tag := 0, hierarchy := 0, digest := t.digest.ffi_data_zeroize }

/-- TPMT_TK_HASHCHECK ticket. -/
structure TPMT_TK_HASHCHECK where
  tag : Nat
  hierarchy : Nat
  digest : TPM2B_DIGEST
deriving DecidableEq

/-- Zeroizer generated by
`implement_ffi_data_zeroizer_trait_for_ticket_type!(TPMT_TK_HASHCHECK)`. -/
def TPMT_TK_HASHCHECK.ffi_data_zeroize (t : TPMT_TK_HASHCHECK) : TPMT_TK_HASHCHECK :=
  { tag := 0, hierarchy := 0, digest := t.digest.ffi_data_zeroize }

/-- Error kinds of `WrapperErrorKind` used by the excerpt. -/
inductive WrapperErrorKind
  | WrongValueFromTpm
  | MissingAuthSession
deriving DecidableEq

/-- Errors surfaced by the excerpt: a local wrapper error or a translated
TSS response code. -/
inductive Error
  | WrapperError (kind : WrapperErrorKind)
  | Tss2Error (rc : Nat)
deriving DecidableEq

/-- Error::local_error constructor used by the source. -/
def Error.local_error (kind : WrapperErrorKind) : Error :=
  Error.WrapperError kind

/-- Authorization session values (password, HMAC or policy based), as the
spec's data model describes `AuthSession`; the concrete session protocol
state is an external collaborator. -/
inductive AuthSession
  | Password
  | HmacSession (handle : Nat)
  | PolicySession (handle : Nat)
deriving DecidableEq

/-- ESYS_TR sentinel for the absent session.  Modelled from the spec: the
well-known no-session sentinel handle (`ESYS_TR_NONE`). -/
def ESYS_TR_NONE : Nat := 0xfff

/-- ESYS_TR handle of the built-in password session. -/
def ESYS_TR_PASSWORD : Nat := 0x0ff

/-- Modelled from the spec: `SessionHandle::from(AuthSession)` followed by
the conversion into a raw ESYS_TR, from the `handles` module that is not
part of the excerpt. -/
def sessionHandleOfAuth : AuthSession → Nat
  | AuthSession.Password => ESYS_TR_PASSWORD
  | AuthSession.HmacSession h => h
  | AuthSession.PolicySession h => h

/-- Modelled from the spec: `SessionHandle::from(Option<AuthSession>)` —
`None` in a slot is translated to the well-known no-session sentinel
handle, never to an error. -/
def sessionHandleOf : Option AuthSession → Nat
  | none => ESYS_TR_NONE
  | some s => sessionHandleOfAuth s

/-- The three ordered optional authorization-session slots of a Context. -/
abbrev SessionSlots := Option AuthSession × Option AuthSession × Option AuthSession

/-- Lookup in the property cache (HashMap::get on
`cached_tpm_properties`, modelled as an association list with unique keys). -/
def cacheGet (cache : List (Nat × Nat)) (key : Nat) : Option Nat :=
  (cache.find? fun e => e.1 == key).map fun e => e.2

/-- Insert in the property cache (HashMap::insert: overwrites the value of
an existing key, otherwise adds the entry). -/
def cacheInsert (cache : List (Nat × Nat)) (key value : Nat) : List (Nat × Nat) :=
  if cache.any fun e => e.1 == key then
    cache.map fun e => if e.1 == key then (key, value) else e
  else
    cache ++ [(key, value)]

/-- The Context state from `context.rs` that the verified operations read or
write: the session slot triple and the property cache.  `rest` stands for
the remaining exclusively owned state (ESYS channel handle, TCTI context,
handle manager) plus the external world reached through native calls; the
native-call oracles below thread it. -/
structure Context (ρ : Type) where
  sessions : SessionSlots
  cached_tpm_properties : List (Nat × Nat)
  rest : ρ

/-- Context::set_sessions. -/
def Context.set_sessions {ρ : Type} (ctx : Context ρ) (session_handles : SessionSlots) :
    Context ρ :=
  { ctx with sessions := session_handles }

/-- Context::clear_sessions. -/
def Context.clear_sessions {ρ : Type} (ctx : Context ρ) : Context ρ :=
  { ctx with sessions := (none, none, none) }

/-- Context::execute_with_sessions: save the current slots, swap in
`session_handles`, run `f` (which may read and write the whole Context),
restore the saved slots, return the closure result. -/
def Context.execute_with_sessions {ρ T : Type} (ctx : Context ρ)
    (session_handles : SessionSlots) (f : Context ρ → T × Context ρ) : T × Context ρ :=
  let oldses := ctx.sessions
  let ctx1 := ctx.set_sessions session_handles
  let resCtx := f ctx1
  let ctx3 := resCtx.2.set_sessions oldses
  (resCtx.1, ctx3)

/-- Context::execute_with_session. -/
def Context.execute_with_session {ρ T : Type} (ctx : Context ρ)
    (session_handle : Option AuthSession) (f : Context ρ → T × Context ρ) : T × Context ρ :=
  ctx.execute_with_sessions (session_handle, none, none) f

/-- Context::execute_without_session. -/
def Context.execute_without_session {ρ T : Type} (ctx : Context ρ)
    (f : Context ρ → T × Context ρ) : T × Context ρ :=
  ctx.execute_with_sessions (none, none, none) f

/-- Session attributes requested for the nullauth session:
`SessionAttributesBuilder::new().with_decrypt(true).with_encrypt(true).build()`
gives the (attributes, mask) pair with exactly the decrypt and encrypt bits. -/
def nullauth_session_attributes : Nat × Nat := (0x60, 0x60)

/-- Context::execute_with_nullauth_session.  The native calls the body makes
(`start_auth_session` with the fixed arguments None/None/None, Hmac,
AES_128_CFB, Sha256; `tr_sess_set_attributes`; `flush_context`) live in
modules outside the excerpt and are passed as oracles threading the
Context.  Control flow mirrors the source: a `?` on session start, the
None-session check, a `?` on attribute setting, the scoped run of `f`, and
a `?` on the final flush. -/
def Context.execute_with_nullauth_session {ρ T E : Type}
    (start_auth_session : Context ρ → Except Error (Option AuthSession) × Context ρ)
    (tr_sess_set_attributes :
      AuthSession → Nat × Nat → Context ρ → Except Error Unit × Context ρ)
    (flush_context : Nat → Context ρ → Except Error Unit × Context ρ)
    (fromError : Error → E)
    (ctx : Context ρ) (f : Context ρ → Except E T × Context ρ) :
    Except E T × Context ρ :=
  match start_auth_session ctx with
  | (Except.error e, ctx1) => (Except.error (fromError e), ctx1)
  | (Except.ok none, ctx1) =>
    (Except.error (fromError (Error.local_error WrapperErrorKind.WrongValueFromTpm)), ctx1)
  | (Except.ok (some auth_session), ctx1) =>
    match tr_sess_set_attributes auth_session nullauth_session_attributes ctx1 with
    | (Except.error e, ctx2) => (Except.error (fromError e), ctx2)
    | (Except.ok _, ctx2) =>
      let resCtx := ctx2.execute_with_session (some auth_session) f
      match flush_context (sessionHandleOf (some auth_session)) resCtx.2 with
      | (Except.error e, ctx4) => (Except.error (fromError e), ctx4)
      | (Except.ok _, ctx4) => (resCtx.1, ctx4)

/-- Context::execute_with_temporary_object: run `f` with the handle, then
flush the object; a `?` on the flush makes a flush error override the
closure result, otherwise the closure result is returned. -/
def Context.execute_with_temporary_object {ρ T : Type}
    (flush_context : Nat → Context ρ → Except Error Unit × Context ρ)
    (ctx : Context ρ) (object : Nat)
    (f : Context ρ → Nat → Except Error T × Context ρ) :
    Except Error T × Context ρ :=
  let resCtx := f ctx object
  match flush_context object resCtx.2 with
  | (Except.error e, ctx2) => (Except.error e, ctx2)
  | (Except.ok _, ctx2) => (resCtx.1, ctx2)

/-- TPM2_CAP_TPM_PROPERTIES capability category passed by get_tpm_property. -/
def CapabilityType_TpmProperties : Nat := 0x00000006

/-- Shapes a capability query response can take (`CapabilityData`): the
`TpmProperties` list of (tag, value) pairs the code expects, or any other
variant. -/
inductive CapabilityData
  | TpmProperties (properties : List (Nat × Nat))
  | Other (kind : Nat)
deriving DecidableEq

/-- Context::get_tpm_property: serve from the cache when possible; otherwise
query a batch of 4 properties starting at `property` (through
`execute_without_session`, so with no sessions set and the previous slots
restored), fail with WrongValueFromTpm on an unexpected response shape,
insert every returned (tag, value) pair into the cache, and answer from the
repopulated cache.  The native `get_capability` lives outside the excerpt
and is passed as an oracle; being a native call it reads and writes the
outside world `ρ`, not the Context's own bookkeeping fields. -/
def Context.get_tpm_property {ρ : Type}
    (get_capability : Nat → Nat → Nat → ρ → Except Error (CapabilityData × Bool) × ρ)
    (ctx : Context ρ) (property : Nat) : Except Error (Option Nat) × Context ρ :=
  match cacheGet ctx.cached_tpm_properties property with
  | some val => (Except.ok (some val), ctx)
  | none =>
    let capCtx := ctx.execute_without_session fun c =>
      let r := get_capability CapabilityType_TpmProperties property 4 c.rest
      (r.1, { c with rest := r.2 })
    match capCtx.1 with
    | Except.error e => (Except.error e, capCtx.2)
    | Except.ok (CapabilityData.TpmProperties props, _) =>
      let ctx2 :=
        { capCtx.2 with
          cached_tpm_properties :=
            props.foldl (fun acc tp => cacheInsert acc tp.1 tp.2)
              capCtx.2.cached_tpm_properties }
      match cacheGet ctx2.cached_tpm_properties property with
      | some val => (Except.ok (some val), ctx2)
      | none => (Except.ok none, ctx2)
    | Except.ok (CapabilityData.Other _, _) =>
      (Except.error (Error.WrapperError WrapperErrorKind.WrongValueFromTpm), capCtx.2)

/-- Observable steps of the Drop sweep: a flush or close attempt on a
tracked handle, the error log line emitted when an individual release call
fails, the leak diagnostic, and the final release of the channel handle. -/
inductive DropEvent
  | flushAttempt (handle : Nat)
  | flushErrorReport (handle : Nat) (e : Error)
  | closeAttempt (handle : Nat)
  | closeErrorReport (handle : Nat) (e : Error)
  | leakReport
  | finalizeChannel
deriving DecidableEq

/-- Marks the release steps of the sweep (attempts and the channel
release), as opposed to the diagnostics logged along the way. -/
def DropEvent.isReleaseStep : DropEvent → Bool
  | DropEvent.flushAttempt _ => true
  | DropEvent.closeAttempt _ => true
  | DropEvent.finalizeChannel => true
  | _ => false

/-- Flush loop of `impl Drop for Context`: attempt a flush for every listed
handle; a failure is logged (`flushErrorReport`) and the loop continues. -/
def dropFlushLoop {σ : Type} (flush_context : Nat → σ → Except Error Unit × σ) :
    List Nat → σ → σ × List DropEvent
  | [], s => (s, [])
  | h :: hs, s =>
    let step := flush_context h s
    let evs := match step.1 with
      | Except.ok _ => [DropEvent.flushAttempt h]
      | Except.error e => [DropEvent.flushAttempt h, DropEvent.flushErrorReport h e]
    let tail := dropFlushLoop flush_context hs step.2
    (tail.1, evs ++ tail.2)

/-- Close loop of `impl Drop for Context`: attempt a close for every listed
handle; a failure is logged (`closeErrorReport`) and the loop continues. -/
def dropCloseLoop {σ : Type} (tr_close : Nat → σ → Except Error Unit × σ) :
    List Nat → σ → σ × List DropEvent
  | [], s => (s, [])
  | h :: hs, s =>
    let step := tr_close h s
    let evs := match step.1 with
      | Except.ok _ => [DropEvent.closeAttempt h]
      | Except.error e => [DropEvent.closeAttempt h, DropEvent.closeErrorReport h e]
    let tail := dropCloseLoop tr_close hs step.2
    (tail.1, evs ++ tail.2)

/-- `impl Drop for Context`: flush every handle the Handle Manager lists
under Flush disposition, close every handle listed under Close disposition,
emit the leak diagnostic when `has_open_handles()` still holds, then
release the channel handle (`Esys_Finalize`) unconditionally.  The native
release calls and the finalizer are oracles on the outside world `σ`; the
two handle lists are whatever `handles_to_flush()` / `handles_to_close()`
return (the handle manager module is not part of the excerpt). -/
def contextDrop {σ : Type}
    (flush_context : Nat → σ → Except Error Unit × σ)
    (tr_close : Nat → σ → Except Error Unit × σ)
    (esys_finalize : σ → σ)
    (handles_to_flush handles_to_close : List Nat)
    (has_open_handles : Bool)
    (s : σ) : σ × List DropEvent :=
  let afterFlush := dropFlushLoop flush_context handles_to_flush s
  let afterClose := dropCloseLoop tr_close handles_to_close afterFlush.1
  (esys_finalize afterClose.1,
    afterFlush.2 ++ afterClose.2 ++
      (if has_open_handles then [DropEvent.leakReport] else []) ++
      [DropEvent.finalizeChannel])

/-- Context::optional_session_1: resolve slot 1 for a call where the
session is optional; total, so a `None` slot can never produce an error. -/
def Context.optional_session_1 {ρ : Type} (ctx : Context ρ) : Nat :=
  sessionHandleOf ctx.sessions.1

/-- Context::optional_session_2. -/
def Context.optional_session_2 {ρ : Type} (ctx : Context ρ) : Nat :=
  sessionHandleOf ctx.sessions.2.1

/-- Context::optional_session_3. -/
def Context.optional_session_3 {ρ : Type} (ctx : Context ρ) : Nat :=
  sessionHandleOf ctx.sessions.2.2

/-- Context::required_session_1: resolve slot 1 for a call where the
protocol mandates a session; a `None` slot yields MissingAuthSession
without any native call (the function is a pure accessor). -/
def Context.required_session_1 {ρ : Type} (ctx : Context ρ) : Except Error Nat :=
  match ctx.sessions.1 with
  | some v => Except.ok (sessionHandleOfAuth v)
  | none => Except.error (Error.local_error WrapperErrorKind.MissingAuthSession)

/-- Context::required_session_2. -/
def Context.required_session_2 {ρ : Type} (ctx : Context ρ) : Except Error Nat :=
  match ctx.sessions.2.1 with
  | some v => Except.ok (sessionHandleOfAuth v)
  | none => Except.error (Error.local_error WrapperErrorKind.MissingAuthSession)

/-- Every byte of a length-prefixed digest buffer is zero, length field included. -/
def TPM2B_DIGEST.zeroized (b : TPM2B_DIGEST) : Prop :=
  b.size = 0 ∧ ∀ x ∈ b.buffer, x = 0

/-- Every byte of a length-prefixed RSA public key buffer is zero. -/
def TPM2B_PUBLIC_KEY_RSA.zeroized (b : TPM2B_PUBLIC_KEY_RSA) : Prop :=
  b.size = 0 ∧ ∀ x ∈ b.buffer, x = 0

/-- Every byte of a length-prefixed ECC parameter buffer is zero. -/
def TPM2B_ECC_PARAMETER.zeroized (b : TPM2B_ECC_PARAMETER) : Prop :=
  b.size = 0 ∧ ∀ x ∈ b.buffer, x = 0

/-- Every byte of an ECC point is zero. -/
def TPMS_ECC_POINT.zeroized (p : TPMS_ECC_POINT) : Prop :=
  p.x.zeroized ∧ p.y.zeroized

lemma digest_zeroize_zeroized (b : TPM2B_DIGEST) : b.ffi_data_zeroize.zeroized := by
  simp [TPM2B_DIGEST.ffi_data_zeroize, TPM2B_DIGEST.zeroized]

lemma pubkey_rsa_zeroize_zeroized (b : TPM2B_PUBLIC_KEY_RSA) : b.ffi_data_zeroize.zeroized := by
  simp [TPM2B_PUBLIC_KEY_RSA.ffi_data_zeroize, TPM2B_PUBLIC_KEY_RSA.zeroized]

lemma ecc_param_zeroize_zeroized (b : TPM2B_ECC_PARAMETER) : b.ffi_data_zeroize.zeroized := by
  simp [TPM2B_ECC_PARAMETER.ffi_data_zeroize, TPM2B_ECC_PARAMETER.zeroized]

lemma ecc_point_zeroize_zeroized (p : TPMS_ECC_POINT) : p.ffi_data_zeroize.zeroized :=
  ⟨ecc_param_zeroize_zeroized p.x, ecc_param_zeroize_zeroized p.y⟩

lemma digest_zeroize_idem (b : TPM2B_DIGEST) :
    b.ffi_data_zeroize.ffi_data_zeroize = b.ffi_data_zeroize := by
  simp [TPM2B_DIGEST.ffi_data_zeroize, List.map_map]

lemma pubkey_rsa_zeroize_idem (b : TPM2B_PUBLIC_KEY_RSA) :
    b.ffi_data_zeroize.ffi_data_zeroize = b.ffi_data_zeroize := by
  simp [TPM2B_PUBLIC_KEY_RSA.ffi_data_zeroize, List.map_map]

lemma ecc_param_zeroize_idem (b : TPM2B_ECC_PARAMETER) :
    b.ffi_data_zeroize.ffi_data_zeroize = b.ffi_data_zeroize := by
  simp [TPM2B_ECC_PARAMETER.ffi_data_zeroize, List.map_map]

lemma ecc_point_zeroize_idem (p : TPMS_ECC_POINT) :
    p.ffi_data_zeroize.ffi_data_zeroize = p.ffi_data_zeroize := by
  simp [TPMS_ECC_POINT.ffi_data_zeroize, ecc_param_zeroize_idem]

lemma sym_def_zeroize_algorithm_eq_zero (v : TPMT_SYM_DEF_OBJECT) :
    v.ffi_data_zeroize.algorithm = 0 := by
  unfold TPMT_SYM_DEF_OBJECT.ffi_data_zeroize
  cases hd : SymmetricObject.tryFrom v.algorithm with
  | none => rfl
  | some a => cases a <;> rfl

lemma sym_def_zeroize_of_algorithm_zero (v : TPMT_SYM_DEF_OBJECT) (h : v.algorithm = 0) :
    v.ffi_data_zeroize = v := by
  obtain ⟨a, k, m⟩ := v
  obtain rfl : a = 0 := h
  rfl

lemma sym_def_zeroize_idem (v : TPMT_SYM_DEF_OBJECT) :
    v.ffi_data_zeroize.ffi_data_zeroize = v.ffi_data_zeroize :=
  sym_def_zeroize_of_algorithm_zero _ (sym_def_zeroize_algorithm_eq_zero v)

lemma rsa_scheme_zeroize_scheme_eq_zero (v : TPMT_RSA_SCHEME) :
    v.ffi_data_zeroize.scheme = 0 := by
  unfold TPMT_RSA_SCHEME.ffi_data_zeroize
  cases hd : RsaSchemeAlgorithm.tryFrom v.scheme with
  | none => rfl
  | some a => cases a <;> rfl

lemma rsa_scheme_zeroize_of_scheme_zero (v : TPMT_RSA_SCHEME) (h : v.scheme = 0) :
    v.ffi_data_zeroize = v := by
  obtain ⟨s, d⟩ := v
  obtain rfl : s = 0 := h
  rfl

lemma rsa_scheme_zeroize_idem (v : TPMT_RSA_SCHEME) :
    v.ffi_data_zeroize.ffi_data_zeroize = v.ffi_data_zeroize :=
  rsa_scheme_zeroize_of_scheme_zero _ (rsa_scheme_zeroize_scheme_eq_zero v)

lemma ecc_scheme_zeroize_scheme_eq_zero (v : TPMT_ECC_SCHEME) :
    v.ffi_data_zeroize.scheme = 0 := by
  unfold TPMT_ECC_SCHEME.ffi_data_zeroize
  cases hd : EccSchemeAlgorithm.tryFrom v.scheme with
  | none => rfl
  | some a => cases a <;> rfl

lemma ecc_scheme_zeroize_of_scheme_zero (v : TPMT_ECC_SCHEME) (h : v.scheme = 0) :
    v.ffi_data_zeroize = v := by
  obtain ⟨s, d⟩ := v
  obtain rfl : s = 0 := h
  rfl

lemma ecc_scheme_zeroize_idem (v : TPMT_ECC_SCHEME) :
    v.ffi_data_zeroize.ffi_data_zeroize = v.ffi_data_zeroize :=
  ecc_scheme_zeroize_of_scheme_zero _ (ecc_scheme_zeroize_scheme_eq_zero v)

lemma kdf_scheme_zeroize_scheme_eq_zero (v : TPMT_KDF_SCHEME) :
    v.ffi_data_zeroize.scheme = 0 := by
  unfold TPMT_KDF_SCHEME.ffi_data_zeroize
  cases hd : KeyDerivationFunction.tryFrom v.scheme with
  | none => rfl
  | some a => cases a <;> rfl

lemma kdf_scheme_zeroize_of_scheme_zero (v : TPMT_KDF_SCHEME) (h : v.scheme = 0) :
    v.ffi_data_zeroize = v := by
  obtain ⟨s, d⟩ := v
  obtain rfl : s = 0 := h
  rfl

lemma kdf_scheme_zeroize_idem (v : TPMT_KDF_SCHEME) :
    v.ffi_data_zeroize.ffi_data_zeroize = v.ffi_data_zeroize :=
  kdf_scheme_zeroize_of_scheme_zero _ (kdf_scheme_zeroize_scheme_eq_zero v)

lemma keyedhash_scheme_zeroize_scheme_eq_zero (v : TPMT_KEYEDHASH_SCHEME) :
    v.ffi_data_zeroize.scheme = 0 := by
  unfold TPMT_KEYEDHASH_SCHEME.ffi_data_zeroize
  cases hd : KeyedHashSchemeAlgorithm.tryFrom v.scheme with
  | none => rfl
  | some a => cases a <;> rfl

lemma keyedhash_scheme_zeroize_of_scheme_zero (v : TPMT_KEYEDHASH_SCHEME) (h : v.scheme = 0) :
    v.ffi_data_zeroize = v := by
  obtain ⟨s, d⟩ := v
  obtain rfl : s = 0 := h
  rfl

lemma keyedhash_scheme_zeroize_idem (v : TPMT_KEYEDHASH_SCHEME) :
    v.ffi_data_zeroize.ffi_data_zeroize = v.ffi_data_zeroize :=
  keyedhash_scheme_zeroize_of_scheme_zero _ (keyedhash_scheme_zeroize_scheme_eq_zero v)

lemma keyedhash_parms_zeroize_idem (p : TPMS_KEYEDHASH_PARMS) :
    p.ffi_data_zeroize.ffi_data_zeroize = p.ffi_data_zeroize := by
  simp [TPMS_KEYEDHASH_PARMS.ffi_data_zeroize, keyedhash_scheme_zeroize_idem]

lemma symcipher_parms_zeroize_idem (p : TPMS_SYMCIPHER_PARMS) :
    p.ffi_data_zeroize.ffi_data_zeroize = p.ffi_data_zeroize := by
  simp [TPMS_SYMCIPHER_PARMS.ffi_data_zeroize, sym_def_zeroize_idem]

lemma rsa_parms_zeroize_idem (p : TPMS_RSA_PARMS) :
    p.ffi_data_zeroize.ffi_data_zeroize = p.ffi_data_zeroize := by
  simp [TPMS_RSA_PARMS.ffi_data_zeroize, sym_def_zeroize_idem, rsa_scheme_zeroize_idem]

lemma ecc_parms_zeroize_idem (p : TPMS_ECC_PARMS) :
    p.ffi_data_zeroize.ffi_data_zeroize = p.ffi_data_zeroize := by
  simp [TPMS_ECC_PARMS.ffi_data_zeroize, sym_def_zeroize_idem, ecc_scheme_zeroize_idem,
    kdf_scheme_zeroize_idem]

lemma public_zeroize_of_undecodable (p : TPMT_PUBLIC)
    (h : PublicAlgorithm.tryFrom p.type_ = none) : p.ffi_data_zeroize = p := by
  unfold TPMT_PUBLIC.ffi_data_zeroize
  rw [h]

lemma public_zeroize_type_eq_zero (p : TPMT_PUBLIC) (a : PublicAlgorithm)
    (h : PublicAlgorithm.tryFrom p.type_ = some a) : p.ffi_data_zeroize.type_ = 0 := by
  unfold TPMT_PUBLIC.ffi_data_zeroize
  rw [h]
  cases a <;> rfl

lemma public_zeroize_of_type_zero (p : TPMT_PUBLIC) (h : p.type_ = 0) :
    p.ffi_data_zeroize = p := by
  apply public_zeroize_of_undecodable
  rw [h]
  rfl

lemma public_zeroize_idem (p : TPMT_PUBLIC) :
    p.ffi_data_zeroize.ffi_data_zeroize = p.ffi_data_zeroize := by
  cases hd : PublicAlgorithm.tryFrom p.type_ with
  | none => rw [public_zeroize_of_undecodable p hd, public_zeroize_of_undecodable p hd]
  | some a => exact public_zeroize_of_type_zero _ (public_zeroize_type_eq_zero p a hd)

/-- A concrete TPMT_PUBLIC whose discriminant `type_ = 0x0002` is a reserved
value no `PublicAlgorithm` variant decodes, with nonzero content everywhere. -/
def undecodablePublicExample : TPMT_PUBLIC :=
  { type_ := 0x0002
    nameAlg := 0x000B
    objectAttributes := 0x00030072
    authPolicy := { size := 2, buffer := [7, 7] }
    parameters :=
      { keyedHashDetail :=
          { scheme := { scheme := TPM2_ALG_HMAC, details := { hashAlgCell := 0x000B, kdfCell := 3 } } }
        symDetail := { sym := { algorithm := TPM2_ALG_AES, keyBits := 128, mode := 0x0043 } }
        rsaDetail :=
          { symmetric := { algorithm := TPM2_ALG_AES, keyBits := 128, mode := 0x0043 }
            scheme := { scheme := TPM2_ALG_RSASSA, details := { hashAlgCell := 0x000B, countCell := 1 } }
            keyBits := 2048
            exponent := 65537 }
        eccDetail :=
          { symmetric := { algorithm := TPM2_ALG_AES, keyBits := 128, mode := 0x0043 }
            scheme := { scheme := TPM2_ALG_ECDSA, details := { hashAlgCell := 0x000B, countCell := 0 } }
            curveID := 3
            kdf := { scheme := TPM2_ALG_MGF1, details := { hashAlgCell := 0x000B } } } }
    unique :=
      { keyedHash := { size := 2, buffer := [4, 4] }
        sym := { size := 2, buffer := [5, 5] }
        rsa := { size := 3, buffer := [6, 6, 6] }
        ecc := { x := { size := 1, buffer := [8] }, y := { size := 1, buffer := [9] } } } }

/-- C1 counterexample: for `TPMT_PUBLIC` with the undecodable discriminant
value 0x0002, `ffi_data_zeroize` modifies nothing at all — in particular the
discriminant field stays 0x0002 instead of being zeroized, refuting the
claim that for every listed type a failing discriminant still gets its
discriminant field zeroized. -/
theorem tpmt_public_undecodable_discriminant_not_zeroized_cex :
    PublicAlgorithm.tryFrom undecodablePublicExample.type_ = none ∧
    undecodablePublicExample.ffi_data_zeroize = undecodablePublicExample ∧
    undecodablePublicExample.ffi_data_zeroize.type_ = 0x0002 ∧ (0x0002 : Nat) ≠ 0 := by
  refine ⟨by decide, by decide, by decide, by decide⟩

/-- C1 (amended): for the five scheme/symmetric tagged-union types, a
discriminant value that fails to decode leaves the union payload unmodified
and zeroizes exactly the discriminant field; for TPMT_PUBLIC, a failing
discriminant leaves the entire structure — discriminant included —
unmodified. -/
theorem zeroize_failing_discriminant_behavior :
    (∀ v : TPMT_SYM_DEF_OBJECT, SymmetricObject.tryFrom v.algorithm = none →
      v.ffi_data_zeroize = { v with algorithm := 0 }) ∧
    (∀ v : TPMT_KEYEDHASH_SCHEME, KeyedHashSchemeAlgorithm.tryFrom v.scheme = none →
      v.ffi_data_zeroize = { v with scheme := 0 }) ∧
    (∀ v : TPMT_RSA_SCHEME, RsaSchemeAlgorithm.tryFrom v.scheme = none →
      v.ffi_data_zeroize = { v with scheme := 0 }) ∧
    (∀ v : TPMT_ECC_SCHEME, EccSchemeAlgorithm.tryFrom v.scheme = none →
      v.ffi_data_zeroize = { v with scheme := 0 }) ∧
    (∀ v : TPMT_KDF_SCHEME, KeyDerivationFunction.tryFrom v.scheme = none →
      v.ffi_data_zeroize = { v with scheme := 0 }) ∧
    (∀ p : TPMT_PUBLIC, PublicAlgorithm.tryFrom p.type_ = none →
      p.ffi_data_zeroize = p) := by
  refine ⟨fun v h => ?_, fun v h => ?_, fun v h => ?_, fun v h => ?_, fun v h => ?_,
    fun p h => public_zeroize_of_undecodable p h⟩
  · unfold TPMT_SYM_DEF_OBJECT.ffi_data_zeroize; rw [h]
  · unfold TPMT_KEYEDHASH_SCHEME.ffi_data_zeroize; rw [h]
  · unfold TPMT_RSA_SCHEME.ffi_data_zeroize; rw [h]
  · unfold TPMT_ECC_SCHEME.ffi_data_zeroize; rw [h]
  · unfold TPMT_KDF_SCHEME.ffi_data_zeroize; rw [h]

/-- C1 witness: the amended theorem applied at concrete undecodable
discriminants (0x0002) for TPMT_RSA_SCHEME and TPMT_PUBLIC. -/
theorem zeroize_failing_discriminant_behavior_witness :
    RsaSchemeAlgorithm.tryFrom (0x0002 : Nat) = none ∧
    (⟨0x0002, ⟨5, 6⟩⟩ : TPMT_RSA_SCHEME).ffi_data_zeroize =
      { (⟨0x0002, ⟨5, 6⟩⟩ : TPMT_RSA_SCHEME) with scheme := 0 } ∧
    PublicAlgorithm.tryFrom undecodablePublicExample.type_ = none ∧
    undecodablePublicExample.ffi_data_zeroize = undecodablePublicExample :=
  ⟨by decide,
   zeroize_failing_discriminant_behavior.2.2.1 ⟨0x0002, ⟨5, 6⟩⟩ (by decide),
   by decide,
   zeroize_failing_discriminant_behavior.2.2.2.2.2 undecodablePublicExample (by decide)⟩

/-- A concrete TPMT_SYM_DEF_OBJECT with the Tdes discriminant and a nonzero
payload (TDES key bits 168, CFB mode). -/
def tdesSymDefExample : TPMT_SYM_DEF_OBJECT :=
  { algorithm := TPM2_ALG_TDES, keyBits := 168, mode := 0x0043 }

/-- C4 counterexample: the Tdes discriminant decodes successfully, yet
`ffi_data_zeroize` leaves the whole union payload (key-bits and mode cells)
unmodified and nonzero — only the discriminant becomes zero — refuting the
claim that every successfully decoded variant, Tdes included, has every
payload byte zeroized. -/
theorem tdes_payload_not_zeroized_cex :
    SymmetricObject.tryFrom tdesSymDefExample.algorithm = some SymmetricObject.Tdes ∧
    tdesSymDefExample.ffi_data_zeroize =
      { algorithm := 0, keyBits := 168, mode := 0x0043 } ∧
    tdesSymDefExample.ffi_data_zeroize.keyBits ≠ 0 ∧
    tdesSymDefExample.ffi_data_zeroize.mode ≠ 0 := by
  refine ⟨by decide, by decide, by decide, by decide⟩

/-- C4 (amended): for every tagged-union type and every successfully decoded
discriminant, the discriminant field ends as zero, and every byte of the
active variant is zeroized except where the matched arm zeroizes no payload:
the Null arms and RsaEs carry no payload (vacuously complete), while the
Tdes arm of TPMT_SYM_DEF_OBJECT leaves its real key-bits/mode payload
unmodified; for TPMT_PUBLIC the non-union fields, authPolicy and the active
unique buffer are fully zeroized and the active parameters variant is
zeroized recursively through its own zeroizer (so the nested
discriminant exceptions propagate). -/
theorem zeroize_known_discriminant_completeness :
    (∀ v : TPMT_SYM_DEF_OBJECT,
      SymmetricObject.tryFrom v.algorithm = some SymmetricObject.Aes ∨
      SymmetricObject.tryFrom v.algorithm = some SymmetricObject.Sm4 ∨
      SymmetricObject.tryFrom v.algorithm = some SymmetricObject.Camellia →
      v.ffi_data_zeroize = { algorithm := 0, keyBits := 0, mode := 0 }) ∧
    (∀ v : TPMT_SYM_DEF_OBJECT,
      SymmetricObject.tryFrom v.algorithm = some SymmetricObject.Null ∨
      SymmetricObject.tryFrom v.algorithm = some SymmetricObject.Tdes →
      v.ffi_data_zeroize = { v with algorithm := 0 }) ∧
    (∀ v : TPMT_KEYEDHASH_SCHEME,
      KeyedHashSchemeAlgorithm.tryFrom v.scheme = some KeyedHashSchemeAlgorithm.Hmac →
      v.ffi_data_zeroize.scheme = 0 ∧ v.ffi_data_zeroize.details.hashAlgCell = 0) ∧
    (∀ v : TPMT_KEYEDHASH_SCHEME,
      KeyedHashSchemeAlgorithm.tryFrom v.scheme = some KeyedHashSchemeAlgorithm.Xor →
      v.ffi_data_zeroize.scheme = 0 ∧ v.ffi_data_zeroize.details.hashAlgCell = 0 ∧
        v.ffi_data_zeroize.details.kdfCell = 0) ∧
    (∀ v : TPMT_KEYEDHASH_SCHEME,
      KeyedHashSchemeAlgorithm.tryFrom v.scheme = some KeyedHashSchemeAlgorithm.Null →
      v.ffi_data_zeroize = { v with scheme := 0 }) ∧
    (∀ v : TPMT_RSA_SCHEME,
      RsaSchemeAlgorithm.tryFrom v.scheme = some RsaSchemeAlgorithm.RsaSsa ∨
      RsaSchemeAlgorithm.tryFrom v.scheme = some RsaSchemeAlgorithm.RsaPss ∨
      RsaSchemeAlgorithm.tryFrom v.scheme = some RsaSchemeAlgorithm.Oaep →
      v.ffi_data_zeroize.scheme = 0 ∧ v.ffi_data_zeroize.details.hashAlgCell = 0) ∧
    (∀ v : TPMT_RSA_SCHEME,
      RsaSchemeAlgorithm.tryFrom v.scheme = some RsaSchemeAlgorithm.RsaEs ∨
      RsaSchemeAlgorithm.tryFrom v.scheme = some RsaSchemeAlgorithm.Null →
      v.ffi_data_zeroize = { v with scheme := 0 }) ∧
    (∀ v : TPMT_ECC_SCHEME,
      EccSchemeAlgorithm.tryFrom v.scheme = some EccSchemeAlgorithm.EcDsa ∨
      EccSchemeAlgorithm.tryFrom v.scheme = some EccSchemeAlgorithm.EcDh ∨
      EccSchemeAlgorithm.tryFrom v.scheme = some EccSchemeAlgorithm.Sm2 ∨
      EccSchemeAlgorithm.tryFrom v.scheme = some EccSchemeAlgorithm.EcSchnorr ∨
      EccSchemeAlgorithm.tryFrom v.scheme = some EccSchemeAlgorithm.EcMqv →
      v.ffi_data_zeroize.scheme = 0 ∧ v.ffi_data_zeroize.details.hashAlgCell = 0) ∧
    (∀ v : TPMT_ECC_SCHEME,
      EccSchemeAlgorithm.tryFrom v.scheme = some EccSchemeAlgorithm.EcDaa →
      v.ffi_data_zeroize.scheme = 0 ∧ v.ffi_data_zeroize.details.hashAlgCell = 0 ∧
        v.ffi_data_zeroize.details.countCell = 0) ∧
    (∀ v : TPMT_ECC_SCHEME,
      EccSchemeAlgorithm.tryFrom v.scheme = some EccSchemeAlgorithm.Null →
      v.ffi_data_zeroize = { v with scheme := 0 }) ∧
    (∀ v : TPMT_KDF_SCHEME,
      KeyDerivationFunction.tryFrom v.scheme = some KeyDerivationFunction.Kdf1Sp800_56a ∨
      KeyDerivationFunction.tryFrom v.scheme = some KeyDerivationFunction.Kdf2 ∨
      KeyDerivationFunction.tryFrom v.scheme = some KeyDerivationFunction.Kdf1Sp800_108 ∨
      KeyDerivationFunction.tryFrom v.scheme = some KeyDerivationFunction.Mgf1 →
      v.ffi_data_zeroize.scheme = 0 ∧ v.ffi_data_zeroize.details.hashAlgCell = 0) ∧
    (∀ v : TPMT_KDF_SCHEME,
      KeyDerivationFunction.tryFrom v.scheme = some KeyDerivationFunction.Null →
      v.ffi_data_zeroize = { v with scheme := 0 }) ∧
    (∀ p : TPMT_PUBLIC, PublicAlgorithm.tryFrom p.type_ = some PublicAlgorithm.Rsa →
      p.ffi_data_zeroize.type_ = 0 ∧ p.ffi_data_zeroize.nameAlg = 0 ∧
      p.ffi_data_zeroize.objectAttributes = 0 ∧ p.ffi_data_zeroize.authPolicy.zeroized ∧
      p.ffi_data_zeroize.unique.rsa.zeroized ∧
      p.ffi_data_zeroize.parameters.rsaDetail = p.parameters.rsaDetail.ffi_data_zeroize) ∧
    (∀ p : TPMT_PUBLIC, PublicAlgorithm.tryFrom p.type_ = some PublicAlgorithm.KeyedHash →
      p.ffi_data_zeroize.type_ = 0 ∧ p.ffi_data_zeroize.nameAlg = 0 ∧
      p.ffi_data_zeroize.objectAttributes = 0 ∧ p.ffi_data_zeroize.authPolicy.zeroized ∧
      p.ffi_data_zeroize.unique.keyedHash.zeroized ∧
      p.ffi_data_zeroize.parameters.keyedHashDetail =
        p.parameters.keyedHashDetail.ffi_data_zeroize) ∧
    (∀ p : TPMT_PUBLIC, PublicAlgorithm.tryFrom p.type_ = some PublicAlgorithm.Ecc →
      p.ffi_data_zeroize.type_ = 0 ∧ p.ffi_data_zeroize.nameAlg = 0 ∧
      p.ffi_data_zeroize.objectAttributes = 0 ∧ p.ffi_data_zeroize.authPolicy.zeroized ∧
      p.ffi_data_zeroize.unique.ecc.zeroized ∧
      p.ffi_data_zeroize.parameters.eccDetail = p.parameters.eccDetail.ffi_data_zeroize) ∧
    (∀ p : TPMT_PUBLIC, PublicAlgorithm.tryFrom p.type_ = some PublicAlgorithm.SymCipher →
      p.ffi_data_zeroize.type_ = 0 ∧ p.ffi_data_zeroize.nameAlg = 0 ∧
      p.ffi_data_zeroize.objectAttributes = 0 ∧ p.ffi_data_zeroize.authPolicy.zeroized ∧
      p.ffi_data_zeroize.unique.sym.zeroized ∧
      p.ffi_data_zeroize.parameters.symDetail = p.parameters.symDetail.ffi_data_zeroize) := by
  refine ⟨fun v h => ?_, fun v h => ?_, fun v h => ?_, fun v h => ?_, fun v h => ?_,
    fun v h => ?_, fun v h => ?_, fun v h => ?_, fun v h => ?_, fun v h => ?_,
    fun v h => ?_, fun v h => ?_, fun p h => ?_, fun p h => ?_, fun p h => ?_,
    fun p h => ?_⟩
  · rcases h with h | h | h <;> (unfold TPMT_SYM_DEF_OBJECT.ffi_data_zeroize; rw [h])
  · rcases h with h | h <;> (unfold TPMT_SYM_DEF_OBJECT.ffi_data_zeroize; rw [h])
  · unfold TPMT_KEYEDHASH_SCHEME.ffi_data_zeroize; rw [h]; exact ⟨rfl, rfl⟩
  · unfold TPMT_KEYEDHASH_SCHEME.ffi_data_zeroize; rw [h]; exact ⟨rfl, rfl, rfl⟩
  · unfold TPMT_KEYEDHASH_SCHEME.ffi_data_zeroize; rw [h]
  · rcases h with h | h | h <;>
      (unfold TPMT_RSA_SCHEME.ffi_data_zeroize; rw [h]; exact ⟨rfl, rfl⟩)
  · rcases h with h | h <;> (unfold TPMT_RSA_SCHEME.ffi_data_zeroize; rw [h])
  · rcases h with h | h | h | h | h <;>
      (unfold TPMT_ECC_SCHEME.ffi_data_zeroize; rw [h]; exact ⟨rfl, rfl⟩)
  · unfold TPMT_ECC_SCHEME.ffi_data_zeroize; rw [h]; exact ⟨rfl, rfl, rfl⟩
  · unfold TPMT_ECC_SCHEME.ffi_data_zeroize; rw [h]
  · rcases h with h | h | h | h <;>
      (unfold TPMT_KDF_SCHEME.ffi_data_zeroize; rw [h]; exact ⟨rfl, rfl⟩)
  · unfold TPMT_KDF_SCHEME.ffi_data_zeroize; rw [h]
  · unfold TPMT_PUBLIC.ffi_data_zeroize; rw [h]
    exact ⟨rfl, rfl, rfl, digest_zeroize_zeroized _, pubkey_rsa_zeroize_zeroized _, rfl⟩
  · unfold TPMT_PUBLIC.ffi_data_zeroize; rw [h]
    exact ⟨rfl, rfl, rfl, digest_zeroize_zeroized _, digest_zeroize_zeroized _, rfl⟩
  · unfold TPMT_PUBLIC.ffi_data_zeroize; rw [h]
    exact ⟨rfl, rfl, rfl, digest_zeroize_zeroized _, ecc_point_zeroize_zeroized _, rfl⟩
  · unfold TPMT_PUBLIC.ffi_data_zeroize; rw [h]
    exact ⟨rfl, rfl, rfl, digest_zeroize_zeroized _, digest_zeroize_zeroized _, rfl⟩

/-- A concrete TPMT_PUBLIC with the Rsa discriminant (same nonzero content as
the undecodable example otherwise). -/
def rsaPublicExample : TPMT_PUBLIC :=
  { undecodablePublicExample with type_ := TPM2_ALG_RSA }

/-- C4 witness: the amended theorem applied at a concrete Aes
TPMT_SYM_DEF_OBJECT and at a concrete Rsa TPMT_PUBLIC. -/
theorem zeroize_known_discriminant_completeness_witness :
    SymmetricObject.tryFrom TPM2_ALG_AES = some SymmetricObject.Aes ∧
    ((⟨TPM2_ALG_AES, 128, 0x43⟩ : TPMT_SYM_DEF_OBJECT).ffi_data_zeroize =
      { algorithm := 0, keyBits := 0, mode := 0 }) ∧
    PublicAlgorithm.tryFrom rsaPublicExample.type_ = some PublicAlgorithm.Rsa ∧
    (rsaPublicExample.ffi_data_zeroize.type_ = 0 ∧
      rsaPublicExample.ffi_data_zeroize.nameAlg = 0 ∧
      rsaPublicExample.ffi_data_zeroize.objectAttributes = 0 ∧
      rsaPublicExample.ffi_data_zeroize.authPolicy.zeroized ∧
      rsaPublicExample.ffi_data_zeroize.unique.rsa.zeroized ∧
      rsaPublicExample.ffi_data_zeroize.parameters.rsaDetail =
        rsaPublicExample.parameters.rsaDetail.ffi_data_zeroize) :=
  ⟨by decide,
   zeroize_known_discriminant_completeness.1 ⟨TPM2_ALG_AES, 128, 0x43⟩ (Or.inl (by decide)),
   by decide,
   zeroize_known_discriminant_completeness.2.2.2.2.2.2.2.2.2.2.2.2.1 rsaPublicExample
     (by decide)⟩

lemma data_buf_zeroize_idem (b : TPM2B_DATA) :
    b.ffi_data_zeroize.ffi_data_zeroize = b.ffi_data_zeroize := by
  simp [TPM2B_DATA.ffi_data_zeroize, List.map_map]

lemma encrypted_secret_zeroize_idem (b : TPM2B_ENCRYPTED_SECRET) :
    b.ffi_data_zeroize.ffi_data_zeroize = b.ffi_data_zeroize := by
  simp [TPM2B_ENCRYPTED_SECRET.ffi_data_zeroize, List.map_map]

lemma id_object_zeroize_idem (b : TPM2B_ID_OBJECT) :
    b.ffi_data_zeroize.ffi_data_zeroize = b.ffi_data_zeroize := by
  simp [TPM2B_ID_OBJECT.ffi_data_zeroize, List.map_map]

lemma iv_zeroize_idem (b : TPM2B_IV) :
    b.ffi_data_zeroize.ffi_data_zeroize = b.ffi_data_zeroize := by
  simp [TPM2B_IV.ffi_data_zeroize, List.map_map]

lemma max_buffer_zeroize_idem (b : TPM2B_MAX_BUFFER) :
    b.ffi_data_zeroize.ffi_data_zeroize = b.ffi_data_zeroize := by
  simp [TPM2B_MAX_BUFFER.ffi_data_zeroize, List.map_map]

lemma max_nv_buffer_zeroize_idem (b : TPM2B_MAX_NV_BUFFER) :
    b.ffi_data_zeroize.ffi_data_zeroize = b.ffi_data_zeroize := by
  simp [TPM2B_MAX_NV_BUFFER.ffi_data_zeroize, List.map_map]

lemma private_buf_zeroize_idem (b : TPM2B_PRIVATE) :
    b.ffi_data_zeroize.ffi_data_zeroize = b.ffi_data_zeroize := by
  simp [TPM2B_PRIVATE.ffi_data_zeroize, List.map_map]

lemma private_key_rsa_zeroize_idem (b : TPM2B_PRIVATE_KEY_RSA) :
    b.ffi_data_zeroize.ffi_data_zeroize = b.ffi_data_zeroize := by
  simp [TPM2B_PRIVATE_KEY_RSA.ffi_data_zeroize, List.map_map]

lemma private_vendor_zeroize_idem (b : TPM2B_PRIVATE_VENDOR_SPECIFIC) :
    b.ffi_data_zeroize.ffi_data_zeroize = b.ffi_data_zeroize := by
  simp [TPM2B_PRIVATE_VENDOR_SPECIFIC.ffi_data_zeroize, List.map_map]

lemma sensitive_data_zeroize_idem (b : TPM2B_SENSITIVE_DATA) :
    b.ffi_data_zeroize.ffi_data_zeroize = b.ffi_data_zeroize := by
  simp [TPM2B_SENSITIVE_DATA.ffi_data_zeroize, List.map_map]

lemma sym_key_zeroize_idem (b : TPM2B_SYM_KEY) :
    b.ffi_data_zeroize.ffi_data_zeroize = b.ffi_data_zeroize := by
  simp [TPM2B_SYM_KEY.ffi_data_zeroize, List.map_map]

lemma name_buf_zeroize_idem (b : TPM2B_NAME) :
    b.ffi_data_zeroize.ffi_data_zeroize = b.ffi_data_zeroize := by
  simp [TPM2B_NAME.ffi_data_zeroize, List.map_map]

lemma sensitive_create_zeroize_idem (p : TPMS_SENSITIVE_CREATE) :
    p.ffi_data_zeroize.ffi_data_zeroize = p.ffi_data_zeroize := by
  simp [TPMS_SENSITIVE_CREATE.ffi_data_zeroize, digest_zeroize_idem, sensitive_data_zeroize_idem]

lemma pcr_selection_zeroize_idem (p : TPMS_PCR_SELECTION) :
    p.ffi_data_zeroize.ffi_data_zeroize = p.ffi_data_zeroize := by
  simp [TPMS_PCR_SELECTION.ffi_data_zeroize, List.map_map]

lemma pcr_selections_map_idem (l : List TPMS_PCR_SELECTION) :
    (l.map TPMS_PCR_SELECTION.ffi_data_zeroize).map TPMS_PCR_SELECTION.ffi_data_zeroize =
      l.map TPMS_PCR_SELECTION.ffi_data_zeroize := by
  induction l with
  | nil => rfl
  | cons a t ih => simp only [List.map_cons, ih, pcr_selection_zeroize_idem]

lemma pcr_list_zeroize_idem (l : TPML_PCR_SELECTION) :
    l.ffi_data_zeroize.ffi_data_zeroize = l.ffi_data_zeroize := by
  simp only [TPML_PCR_SELECTION.ffi_data_zeroize, pcr_selections_map_idem]

lemma creation_data_zeroize_idem (p : TPMS_CREATION_DATA) :
    p.ffi_data_zeroize.ffi_data_zeroize = p.ffi_data_zeroize := by
  simp [TPMS_CREATION_DATA.ffi_data_zeroize, pcr_list_zeroize_idem, digest_zeroize_idem,
    name_buf_zeroize_idem, data_buf_zeroize_idem]

lemma creation_data_buf_zeroize_idem (b : TPM2B_CREATION_DATA) :
    b.ffi_data_zeroize.ffi_data_zeroize = b.ffi_data_zeroize := by
  simp [TPM2B_CREATION_DATA.ffi_data_zeroize, creation_data_zeroize_idem]

lemma sensitive_create_buf_zeroize_idem (b : TPM2B_SENSITIVE_CREATE) :
    b.ffi_data_zeroize.ffi_data_zeroize = b.ffi_data_zeroize := by
  simp [TPM2B_SENSITIVE_CREATE.ffi_data_zeroize, sensitive_create_zeroize_idem]

lemma public_buf_zeroize_idem (b : TPM2B_PUBLIC) :
    b.ffi_data_zeroize.ffi_data_zeroize = b.ffi_data_zeroize := by
  simp [TPM2B_PUBLIC.ffi_data_zeroize, public_zeroize_idem]

lemma scheme_hash_zeroize_idem (p : TPMS_SCHEME_HASH) :
    p.ffi_data_zeroize.ffi_data_zeroize = p.ffi_data_zeroize :=
  rfl

lemma scheme_xor_zeroize_idem (p : TPMS_SCHEME_XOR) :
    p.ffi_data_zeroize.ffi_data_zeroize = p.ffi_data_zeroize :=
  rfl

lemma scheme_ecdaa_zeroize_idem (p : TPMS_SCHEME_ECDAA) :
    p.ffi_data_zeroize.ffi_data_zeroize = p.ffi_data_zeroize :=
  rfl

lemma tk_creation_zeroize_idem (t : TPMT_TK_CREATION) :
    t.ffi_data_zeroize.ffi_data_zeroize = t.ffi_data_zeroize := by
  simp [TPMT_TK_CREATION.ffi_data_zeroize, digest_zeroize_idem]

lemma tk_verified_zeroize_idem (t : TPMT_TK_VERIFIED) :
    t.ffi_data_zeroize.ffi_data_zeroize = t.ffi_data_zeroize := by
  simp [TPMT_TK_VERIFIED.ffi_data_zeroize, digest_zeroize_idem]

lemma tk_auth_zeroize_idem (t : TPMT_TK_AUTH) :
    t.ffi_data_zeroize.ffi_data_zeroize = t.ffi_data_zeroize := by
  simp [TPMT_TK_AUTH.ffi_data_zeroize, digest_zeroize_idem]

lemma tk_hashcheck_zeroize_idem (t : TPMT_TK_HASHCHECK) :
    t.ffi_data_zeroize.ffi_data_zeroize = t.ffi_data_zeroize := by
  simp [TPMT_TK_HASHCHECK.ffi_data_zeroize, digest_zeroize_idem]

/-- C10: every one of the forty `ffi_data_zeroize` implementations of
`data_zeroize.rs` is idempotent — applying it twice yields exactly the
state after applying it once (in particular, a discriminant already
zeroized by the first pass fails to decode on the second pass, which
therefore leaves the union payload untouched). -/
theorem ffi_data_zeroize_idempotent :
    (∀ b : TPM2B_DIGEST, b.ffi_data_zeroize.ffi_data_zeroize = b.ffi_data_zeroize) ∧
    (∀ b : TPM2B_DATA, b.ffi_data_zeroize.ffi_data_zeroize = b.ffi_data_zeroize) ∧
    (∀ b : TPM2B_ECC_PARAMETER, b.ffi_data_zeroize.ffi_data_zeroize = b.ffi_data_zeroize) ∧
    (∀ b : TPM2B_ENCRYPTED_SECRET, b.ffi_data_zeroize.ffi_data_zeroize = b.ffi_data_zeroize) ∧
    (∀ b : TPM2B_ID_OBJECT, b.ffi_data_zeroize.ffi_data_zeroize = b.ffi_data_zeroize) ∧
    (∀ b : TPM2B_IV, b.ffi_data_zeroize.ffi_data_zeroize = b.ffi_data_zeroize) ∧
    (∀ b : TPM2B_MAX_BUFFER, b.ffi_data_zeroize.ffi_data_zeroize = b.ffi_data_zeroize) ∧
    (∀ b : TPM2B_MAX_NV_BUFFER, b.ffi_data_zeroize.ffi_data_zeroize = b.ffi_data_zeroize) ∧
    (∀ b : TPM2B_PRIVATE, b.ffi_data_zeroize.ffi_data_zeroize = b.ffi_data_zeroize) ∧
    (∀ b : TPM2B_PRIVATE_KEY_RSA, b.ffi_data_zeroize.ffi_data_zeroize = b.ffi_data_zeroize) ∧
    (∀ b : TPM2B_PRIVATE_VENDOR_SPECIFIC,
      b.ffi_data_zeroize.ffi_data_zeroize = b.ffi_data_zeroize) ∧
    (∀ b : TPM2B_PUBLIC_KEY_RSA, b.ffi_data_zeroize.ffi_data_zeroize = b.ffi_data_zeroize) ∧
    (∀ b : TPM2B_SENSITIVE_DATA, b.ffi_data_zeroize.ffi_data_zeroize = b.ffi_data_zeroize) ∧
    (∀ b : TPM2B_SYM_KEY, b.ffi_data_zeroize.ffi_data_zeroize = b.ffi_data_zeroize) ∧
    (∀ b : TPM2B_CREATION_DATA, b.ffi_data_zeroize.ffi_data_zeroize = b.ffi_data_zeroize) ∧
    (∀ b : TPM2B_SENSITIVE_CREATE, b.ffi_data_zeroize.ffi_data_zeroize = b.ffi_data_zeroize) ∧
    (∀ b : TPM2B_NAME, b.ffi_data_zeroize.ffi_data_zeroize = b.ffi_data_zeroize) ∧
    (∀ b : TPM2B_PUBLIC, b.ffi_data_zeroize.ffi_data_zeroize = b.ffi_data_zeroize) ∧
    (∀ p : TPMS_SENSITIVE_CREATE, p.ffi_data_zeroize.ffi_data_zeroize = p.ffi_data_zeroize) ∧
    (∀ p : TPMS_CREATION_DATA, p.ffi_data_zeroize.ffi_data_zeroize = p.ffi_data_zeroize) ∧
    (∀ p : TPMS_PCR_SELECTION, p.ffi_data_zeroize.ffi_data_zeroize = p.ffi_data_zeroize) ∧
    (∀ p : TPMS_SCHEME_HASH, p.ffi_data_zeroize.ffi_data_zeroize = p.ffi_data_zeroize) ∧
    (∀ p : TPMS_SCHEME_XOR, p.ffi_data_zeroize.ffi_data_zeroize = p.ffi_data_zeroize) ∧
    (∀ p : TPMS_SCHEME_ECDAA, p.ffi_data_zeroize.ffi_data_zeroize = p.ffi_data_zeroize) ∧
    (∀ p : TPMS_KEYEDHASH_PARMS, p.ffi_data_zeroize.ffi_data_zeroize = p.ffi_data_zeroize) ∧
    (∀ p : TPMS_SYMCIPHER_PARMS, p.ffi_data_zeroize.ffi_data_zeroize = p.ffi_data_zeroize) ∧
    (∀ p : TPMS_ECC_PARMS, p.ffi_data_zeroize.ffi_data_zeroize = p.ffi_data_zeroize) ∧
    (∀ p : TPMS_RSA_PARMS, p.ffi_data_zeroize.ffi_data_zeroize = p.ffi_data_zeroize) ∧
    (∀ p : TPMS_ECC_POINT, p.ffi_data_zeroize.ffi_data_zeroize = p.ffi_data_zeroize) ∧
    (∀ l : TPML_PCR_SELECTION, l.ffi_data_zeroize.ffi_data_zeroize = l.ffi_data_zeroize) ∧
    (∀ v : TPMT_SYM_DEF_OBJECT, v.ffi_data_zeroize.ffi_data_zeroize = v.ffi_data_zeroize) ∧
    (∀ p : TPMT_PUBLIC, p.ffi_data_zeroize.ffi_data_zeroize = p.ffi_data_zeroize) ∧
    (∀ v : TPMT_KEYEDHASH_SCHEME, v.ffi_data_zeroize.ffi_data_zeroize = v.ffi_data_zeroize) ∧
    (∀ v : TPMT_RSA_SCHEME, v.ffi_data_zeroize.ffi_data_zeroize = v.ffi_data_zeroize) ∧
    (∀ v : TPMT_ECC_SCHEME, v.ffi_data_zeroize.ffi_data_zeroize = v.ffi_data_zeroize) ∧
    (∀ v : TPMT_KDF_SCHEME, v.ffi_data_zeroize.ffi_data_zeroize = v.ffi_data_zeroize) ∧
    (∀ t : TPMT_TK_CREATION, t.ffi_data_zeroize.ffi_data_zeroize = t.ffi_data_zeroize) ∧
    (∀ t : TPMT_TK_VERIFIED, t.ffi_data_zeroize.ffi_data_zeroize = t.ffi_data_zeroize) ∧
    (∀ t : TPMT_TK_AUTH, t.ffi_data_zeroize.ffi_data_zeroize = t.ffi_data_zeroize) ∧
    (∀ t : TPMT_TK_HASHCHECK, t.ffi_data_zeroize.ffi_data_zeroize = t.ffi_data_zeroize) :=
  ⟨digest_zeroize_idem, data_buf_zeroize_idem, ecc_param_zeroize_idem,
   encrypted_secret_zeroize_idem, id_object_zeroize_idem, iv_zeroize_idem,
   max_buffer_zeroize_idem, max_nv_buffer_zeroize_idem, private_buf_zeroize_idem,
   private_key_rsa_zeroize_idem, private_vendor_zeroize_idem, pubkey_rsa_zeroize_idem,
   sensitive_data_zeroize_idem, sym_key_zeroize_idem, creation_data_buf_zeroize_idem,
   sensitive_create_buf_zeroize_idem, name_buf_zeroize_idem, public_buf_zeroize_idem,
   sensitive_create_zeroize_idem, creation_data_zeroize_idem, pcr_selection_zeroize_idem,
   scheme_hash_zeroize_idem, scheme_xor_zeroize_idem, scheme_ecdaa_zeroize_idem,
   keyedhash_parms_zeroize_idem, symcipher_parms_zeroize_idem, ecc_parms_zeroize_idem,
   rsa_parms_zeroize_idem, ecc_point_zeroize_idem, pcr_list_zeroize_idem,
   sym_def_zeroize_idem, public_zeroize_idem, keyedhash_scheme_zeroize_idem,
   rsa_scheme_zeroize_idem, ecc_scheme_zeroize_idem, kdf_scheme_zeroize_idem,
   tk_creation_zeroize_idem, tk_verified_zeroize_idem, tk_auth_zeroize_idem,
   tk_hashcheck_zeroize_idem⟩

/-- C3: `execute_with_sessions` restores the previous session slot triple on
every exit: for every initial Context (slots S0), every inner triple S1 and
every closure f — including closures that mutate the slots or return an
error value — the slots after the call equal S0. -/
theorem execute_with_sessions_restores_slots {ρ T : Type} (ctx : Context ρ)
    (session_handles : SessionSlots) (f : Context ρ → T × Context ρ) :
    (ctx.execute_with_sessions session_handles f).2.sessions = ctx.sessions :=
  rfl

/-- C5: in `execute_with_temporary_object`, the flush runs after `f` on every
path (the final state is the flush oracle's output state); when the flush
succeeds the closure result — success or error — is returned unchanged, and
when the flush fails the flush error overrides the closure result. -/
theorem execute_with_temporary_object_flush_ordering {ρ T : Type}
    (flush_context : Nat → Context ρ → Except Error Unit × Context ρ)
    (ctx : Context ρ) (object : Nat)
    (f : Context ρ → Nat → Except Error T × Context ρ)
    (res : Except Error T) (ctx1 : Context ρ)
    (hf : f ctx object = (res, ctx1)) :
    (∀ u ctx2, flush_context object ctx1 = (Except.ok u, ctx2) →
      Context.execute_with_temporary_object flush_context ctx object f = (res, ctx2)) ∧
    (∀ e ctx2, flush_context object ctx1 = (Except.error e, ctx2) →
      Context.execute_with_temporary_object flush_context ctx object f =
        (Except.error e, ctx2)) := by
  constructor <;> intro x ctx2 hfl <;>
    simp [Context.execute_with_temporary_object, hf, hfl]

/-- A Context over a trivial outside world, with empty slots and cache. -/
def unitContextExample : Context Unit :=
  { sessions := (none, none, none), cached_tpm_properties := [], rest := () }

/-- C5 witness: the spec scenario — the closure fails on handle 42, the
flush of handle 42 succeeds, and the closure's error is the one returned. -/
theorem execute_with_temporary_object_flush_ordering_witness :
    Context.execute_with_temporary_object
      (fun _ c => (Except.ok (), c)) unitContextExample 42
      (fun c _ => ((Except.error (Error.Tss2Error 0xE) : Except Error Nat), c)) =
      (Except.error (Error.Tss2Error 0xE), unitContextExample) :=
  (execute_with_temporary_object_flush_ordering _ unitContextExample 42 _
      (Except.error (Error.Tss2Error 0xE)) unitContextExample rfl).1 () unitContextExample rfl

/-- C9: an empty slot resolved through `optional_session_1/2/3` yields the
no-session sentinel handle (the functions are total, so never an error),
while an empty slot resolved through `required_session_1/2` yields the
MissingAuthSession local error — raised by a pure accessor, before any
native call. -/
theorem session_slot_resolution {ρ : Type} (ctx : Context ρ) :
    (ctx.sessions.1 = none → ctx.optional_session_1 = ESYS_TR_NONE) ∧
    (ctx.sessions.2.1 = none → ctx.optional_session_2 = ESYS_TR_NONE) ∧
    (ctx.sessions.2.2 = none → ctx.optional_session_3 = ESYS_TR_NONE) ∧
    (ctx.sessions.1 = none →
      ctx.required_session_1 =
        Except.error (Error.local_error WrapperErrorKind.MissingAuthSession)) ∧
    (ctx.sessions.2.1 = none →
      ctx.required_session_2 =
        Except.error (Error.local_error WrapperErrorKind.MissingAuthSession)) := by
  refine ⟨fun h => ?_, fun h => ?_, fun h => ?_, fun h => ?_, fun h => ?_⟩ <;>
    simp [Context.optional_session_1, Context.optional_session_2, Context.optional_session_3,
      Context.required_session_1, Context.required_session_2, sessionHandleOf, h]

/-- C9 witness: the theorem applied to a concrete Context with empty slots. -/
theorem session_slot_resolution_witness :
    unitContextExample.sessions.1 = none ∧
    unitContextExample.optional_session_1 = ESYS_TR_NONE ∧
    unitContextExample.required_session_1 =
      Except.error (Error.local_error WrapperErrorKind.MissingAuthSession) :=
  ⟨rfl, (session_slot_resolution unitContextExample).1 rfl,
   (session_slot_resolution unitContextExample).2.2.2.1 rfl⟩

lemma dropFlushLoop_release_trace {σ : Type}
    (flush_context : Nat → σ → Except Error Unit × σ) (hs : List Nat) (s : σ) :
    (dropFlushLoop flush_context hs s).2.filter DropEvent.isReleaseStep =
      hs.map DropEvent.flushAttempt := by
  induction hs generalizing s with
  | nil => simp [dropFlushLoop]
  | cons h t ih =>
    cases hr : flush_context h s with
    | mk r s1 =>
      cases r with
      | ok u => simp [dropFlushLoop, hr, DropEvent.isReleaseStep, ih]
      | error e => simp [dropFlushLoop, hr, DropEvent.isReleaseStep, ih]

lemma dropCloseLoop_release_trace {σ : Type}
    (tr_close : Nat → σ → Except Error Unit × σ) (hs : List Nat) (s : σ) :
    (dropCloseLoop tr_close hs s).2.filter DropEvent.isReleaseStep =
      hs.map DropEvent.closeAttempt := by
  induction hs generalizing s with
  | nil => simp [dropCloseLoop]
  | cons h t ih =>
    cases hr : tr_close h s with
    | mk r s1 =>
      cases r with
      | ok u => simp [dropCloseLoop, hr, DropEvent.isReleaseStep, ih]
      | error e => simp [dropCloseLoop, hr, DropEvent.isReleaseStep, ih]

/-- C6: for every behaviour of the native release calls — including
arbitrarily failing ones — and every pair of handle lists supplied by the
Handle Manager, the Drop sweep's release steps are exactly one flush
attempt per Flush-disposition handle, then one close attempt per
Close-disposition handle, then the unconditional channel release, in that
order; individual failures only add inline error reports and never abort
the sweep. -/
theorem context_drop_sweep_exhaustive {σ : Type}
    (flush_context tr_close : Nat → σ → Except Error Unit × σ)
    (esys_finalize : σ → σ) (handles_to_flush handles_to_close : List Nat)
    (has_open_handles : Bool) (s : σ) :
    (contextDrop flush_context tr_close esys_finalize handles_to_flush handles_to_close
        has_open_handles s).2.filter DropEvent.isReleaseStep =
      handles_to_flush.map DropEvent.flushAttempt ++
        handles_to_close.map DropEvent.closeAttempt ++ [DropEvent.finalizeChannel] := by
  cases has_open_handles <;>
    simp [contextDrop, dropFlushLoop_release_trace, dropCloseLoop_release_trace,
      DropEvent.isReleaseStep]

/-- C2 counterexample: with a closure that succeeds with value 7 and a flush
oracle that fails, `execute_with_nullauth_session` returns the flush error,
not the closure's result — refuting the claim that a flush failure does not
suppress the closure's own result. -/
theorem nullauth_flush_error_suppresses_result_cex :
    (Context.execute_with_nullauth_session
      (fun c => (Except.ok (some (AuthSession.HmacSession 5)), c))
      (fun _ _ c => (Except.ok (), c))
      (fun _ c => (Except.error (Error.Tss2Error 0x9A2), c))
      id unitContextExample
      (fun c => ((Except.ok 7 : Except Error Nat), c))).1 =
      Except.error (Error.Tss2Error 0x9A2) ∧
    (Except.error (Error.Tss2Error 0x9A2) : Except Error Nat) ≠ Except.ok 7 :=
  ⟨rfl, fun h => Except.noConfusion h⟩

/-- C2 (amended): when session start and attribute setting succeed, the HMAC
session flush runs after `f` on both the success and the failure path of
`f` (the flush receives the post-closure state and produces the final
state); if the flush succeeds, `f`'s result — success or error — is
returned; if the flush fails, the flush error (converted into the caller's
error type) is returned instead, suppressing `f`'s result. -/
theorem execute_with_nullauth_session_flush_behavior {ρ T E : Type}
    (start_auth_session : Context ρ → Except Error (Option AuthSession) × Context ρ)
    (tr_sess_set_attributes :
      AuthSession → Nat × Nat → Context ρ → Except Error Unit × Context ρ)
    (flush_context : Nat → Context ρ → Except Error Unit × Context ρ)
    (fromError : Error → E) (ctx : Context ρ) (f : Context ρ → Except E T × Context ρ)
    (ses : AuthSession) (ctx1 ctx2 : Context ρ)
    (hstart : start_auth_session ctx = (Except.ok (some ses), ctx1))
    (hattr : tr_sess_set_attributes ses nullauth_session_attributes ctx1 =
      (Except.ok (), ctx2)) :
    (∀ u ctx4, flush_context (sessionHandleOf (some ses))
        (ctx2.execute_with_session (some ses) f).2 = (Except.ok u, ctx4) →
      Context.execute_with_nullauth_session start_auth_session tr_sess_set_attributes
        flush_context fromError ctx f =
        ((ctx2.execute_with_session (some ses) f).1, ctx4)) ∧
    (∀ e ctx4, flush_context (sessionHandleOf (some ses))
        (ctx2.execute_with_session (some ses) f).2 = (Except.error e, ctx4) →
      Context.execute_with_nullauth_session start_auth_session tr_sess_set_attributes
        flush_context fromError ctx f = (Except.error (fromError e), ctx4)) := by
  constructor <;> intro x ctx4 hfl <;>
    simp [Context.execute_with_nullauth_session, hstart, hattr, hfl]

/-- C2 witness: the amended theorem applied at concrete oracles where the
closure fails and the flush succeeds — the closure's error is preserved. -/
theorem execute_with_nullauth_session_flush_behavior_witness :
    Context.execute_with_nullauth_session
      (fun c => (Except.ok (some (AuthSession.HmacSession 5)), c))
      (fun _ _ c => (Except.ok (), c))
      (fun _ c => (Except.ok (), c))
      id unitContextExample
      (fun c => ((Except.error (Error.Tss2Error 7) : Except Error Nat), c)) =
      (Except.error (Error.Tss2Error 7), unitContextExample) :=
  (execute_with_nullauth_session_flush_behavior
      (fun c => (Except.ok (some (AuthSession.HmacSession 5)), c))
      (fun _ _ c => (Except.ok (), c))
      (fun _ c => (Except.ok (), c))
      id unitContextExample
      (fun c => ((Except.error (Error.Tss2Error 7) : Except Error Nat), c))
      (AuthSession.HmacSession 5) unitContextExample unitContextExample
      rfl rfl).1 () unitContextExample rfl

lemma cacheGet_insert_self (c : List (Nat × Nat)) (k v : Nat) :
    cacheGet (cacheInsert c k v) k = some v := by
  unfold cacheInsert
  by_cases h : (c.any fun e => e.1 == k) = true
  · rw [if_pos h]
    unfold cacheGet
    induction c with
    | nil => simp at h
    | cons e t ih =>
      by_cases he : (e.1 == k) = true
      · simp only [List.map_cons, if_pos he, List.find?_cons, beq_self_eq_true]
        rfl
      · have h' : (t.any fun e => e.1 == k) = true := by simpa [he] using h
        have heb : (e.1 == k) = false := by simpa using he
        simp only [List.map_cons, if_neg he]
        simp only [List.find?_cons, heb]
        exact ih h'
  · rw [if_neg h]
    unfold cacheGet
    have hnone : c.find? (fun e => e.1 == k) = none := by
      rw [List.find?_eq_none]
      intro x hx hpx
      exact h (List.any_eq_true.mpr ⟨x, hx, hpx⟩)
    rw [List.find?_append, hnone]
    simp

lemma cacheGet_insert_ne (c : List (Nat × Nat)) (k v k' : Nat) (h : k' ≠ k) :
    cacheGet (cacheInsert c k v) k' = cacheGet c k' := by
  have hkk' : (k == k') = false := beq_eq_false_iff_ne.mpr (Ne.symm h)
  unfold cacheInsert
  by_cases ha : (c.any fun e => e.1 == k) = true
  · rw [if_pos ha]
    unfold cacheGet
    clear ha
    induction c with
    | nil => rfl
    | cons e t ih =>
      by_cases he : (e.1 == k) = true
      · have he' : e.1 = k := by simpa using he
        simp only [List.map_cons, if_pos he]
        simp only [List.find?_cons, he', hkk']
        exact ih
      · simp only [List.map_cons, if_neg he, List.find?_cons]
        by_cases hk' : (e.1 == k') = true
        · simp only [hk']
        · have hk'b : (e.1 == k') = false := by simpa using hk'
          simp only [hk'b]
          exact ih
  · rw [if_neg ha]
    unfold cacheGet
    rw [List.find?_append]
    rw [show List.find? (fun e => e.1 == k') [(k, v)] = none by simp [hkk']]
    rw [Option.or_none]

lemma cache_foldl_insert_present (props : List (Nat × Nat)) :
    ∀ (c : List (Nat × Nat)) (t v : Nat), cacheGet c t = some v →
      ∃ v', cacheGet (props.foldl (fun acc tp => cacheInsert acc tp.1 tp.2) c) t = some v' := by
  induction props with
  | nil => exact fun c t v h => ⟨v, h⟩
  | cons tp rest ih =>
    intro c t v h
    rw [List.foldl_cons]
    by_cases ht : t = tp.1
    · apply ih _ t tp.2
      rw [ht]
      exact cacheGet_insert_self c tp.1 tp.2
    · apply ih _ t v
      rw [cacheGet_insert_ne c tp.1 tp.2 t ht]
      exact h

lemma cache_foldl_insert_agrees (props : List (Nat × Nat)) :
    ∀ (c : List (Nat × Nat)) (t v : Nat), (∀ w, (t, w) ∈ props → w = v) →
      cacheGet c t = some v →
      cacheGet (props.foldl (fun acc tp => cacheInsert acc tp.1 tp.2) c) t = some v := by
  induction props with
  | nil => exact fun c t v _ h => h
  | cons tp rest ih =>
    intro c t v hagree h
    rw [List.foldl_cons]
    by_cases ht : t = tp.1
    · have htv : tp.2 = v := hagree tp.2 (by rw [ht]; exact List.mem_cons_self _ _)
      apply ih _ t v fun w hw => hagree w (List.mem_cons_of_mem _ hw)
      rw [ht, cacheGet_insert_self, htv]
    · apply ih _ t v fun w hw => hagree w (List.mem_cons_of_mem _ hw)
      rw [cacheGet_insert_ne c tp.1 tp.2 t ht]
      exact h

/-- A Context whose cache already holds property 1 with value 5. -/
def cacheCtxExample : Context Unit :=
  { sessions := (none, none, none), cached_tpm_properties := [(1, 5)], rest := () }

/-- A capability oracle whose batched response reports property 1 with the
value 7 (different from the cached 5) next to the requested property 2. -/
def overwritingCapOracle :
    Nat → Nat → Nat → Unit → Except Error (CapabilityData × Bool) × Unit :=
  fun _ _ _ u => (Except.ok (CapabilityData.TpmProperties [(1, 7), (2, 9)], false), u)

/-- C7 counterexample: with property 1 cached at 5, a later
`get_tpm_property` call for property 2 whose batch response also carries
(1, 7) overwrites the cached value of property 1 to 7 — refuting the claim
that no later operation changes a cached tag's value. -/
theorem property_cache_overwrite_cex :
    cacheGet cacheCtxExample.cached_tpm_properties 1 = some 5 ∧
    (Context.get_tpm_property overwritingCapOracle cacheCtxExample 2).1 =
      Except.ok (some 9) ∧
    cacheGet
      (Context.get_tpm_property overwritingCapOracle cacheCtxExample 2).2.cached_tpm_properties
      1 = some 7 ∧
    (some 7 : Option Nat) ≠ some 5 := by
  refine ⟨rfl, rfl, rfl, by decide⟩

/-- C7 (amended): a cached tag is never removed by a later
`get_tpm_property` call — a batch population can only overwrite its value
with whatever the TPM reports for it; consequently, when every
(tag, value) pair the capability response carries for the tag agrees with
the cached value (the TPM reporting its properties consistently), the
cached value is preserved exactly. -/
theorem property_cache_no_removal_and_agreement_preservation {ρ : Type}
    (get_capability : Nat → Nat → Nat → ρ → Except Error (CapabilityData × Bool) × ρ)
    (ctx : Context ρ) (property t v : Nat)
    (hcached : cacheGet ctx.cached_tpm_properties t = some v) :
    (∃ v', cacheGet
        (Context.get_tpm_property get_capability ctx property).2.cached_tpm_properties t =
        some v') ∧
    ((∀ props mored,
        (get_capability CapabilityType_TpmProperties property 4 ctx.rest).1 =
          Except.ok (CapabilityData.TpmProperties props, mored) →
        ∀ w, (t, w) ∈ props → w = v) →
      cacheGet
        (Context.get_tpm_property get_capability ctx property).2.cached_tpm_properties t =
        some v) := by
  unfold Context.get_tpm_property
  cases hc : cacheGet ctx.cached_tpm_properties property with
  | some val => exact ⟨⟨v, hcached⟩, fun _ => hcached⟩
  | none =>
    cases hr : get_capability CapabilityType_TpmProperties property 4 ctx.rest with
    | mk r s' =>
      cases r with
      | error e =>
        simp only [Context.execute_without_session, Context.execute_with_sessions,
          Context.set_sessions, hr]
        exact ⟨⟨v, hcached⟩, fun _ => hcached⟩
      | ok pair =>
        cases pair with
        | mk capD mored =>
          cases capD with
          | TpmProperties props =>
            simp only [Context.execute_without_session, Context.execute_with_sessions,
              Context.set_sessions, hr]
            cases hc2 : cacheGet
                (props.foldl (fun acc tp => cacheInsert acc tp.1 tp.2)
                  ctx.cached_tpm_properties) property with
            | some val =>
              refine ⟨cache_foldl_insert_present props _ t v hcached, fun hagree => ?_⟩
              exact cache_foldl_insert_agrees props _ t v
                (fun w hw => hagree props mored rfl w hw) hcached
            | none =>
              refine ⟨cache_foldl_insert_present props _ t v hcached, fun hagree => ?_⟩
              exact cache_foldl_insert_agrees props _ t v
                (fun w hw => hagree props mored rfl w hw) hcached
          | Other kind =>
            simp only [Context.execute_without_session, Context.execute_with_sessions,
              Context.set_sessions, hr]
            exact ⟨⟨v, hcached⟩, fun _ => hcached⟩

/-- The Context state after the overwriting batch: cache [(1, 7), (2, 9)]. -/
def overwrittenCtxExample : Context Unit :=
  (Context.get_tpm_property overwritingCapOracle cacheCtxExample 2).2

/-- C7 witness: the amended theorem applied to the overwrite scenario — for
property 2, for which the oracle's response (2, 9) agrees with the cached
value 9, a further call leaves the cached value intact. -/
theorem property_cache_no_removal_and_agreement_preservation_witness :
    cacheGet (Context.get_tpm_property overwritingCapOracle overwrittenCtxExample 1).2.cached_tpm_properties 2 = some 9 := by
  have h := property_cache_no_removal_and_agreement_preservation overwritingCapOracle
    overwrittenCtxExample 1 2 9 rfl
  exact h.2 fun props mored hresp w hw => by
    have h1 : Except.ok (CapabilityData.TpmProperties [(1, 7), (2, 9)], false) =
        Except.ok (CapabilityData.TpmProperties props, mored) := hresp
    injection h1 with h2
    injection h2 with h3 h4
    injection h3 with h5
    rw [← h5] at hw
    simp at hw
    exact hw

/-- A fresh-cache Context over a query-counting world: `rest` counts the
capability queries issued. -/
def countingCtxExample : Context Nat :=
  { sessions := (none, none, none), cached_tpm_properties := [], rest := 0 }

/-- A capability oracle that counts its invocations in the world state and
reports an empty property batch (the TPM has no value for any tag). -/
def emptyCountingCapOracle :
    Nat → Nat → Nat → Nat → Except Error (CapabilityData × Bool) × Nat :=
  fun _ _ _ n => (Except.ok (CapabilityData.TpmProperties [], false), n + 1)

/-- C8 counterexample: when the TPM has no value for the tag, the tag is
never cached, so each of two successive `get_tpm_property` calls issues its
own capability query — two queries in total, refuting "at most one
capability query".  (Both calls do return the identical value `none`.) -/
theorem get_tpm_property_requeries_unknown_tag_cex :
    (Context.get_tpm_property emptyCountingCapOracle countingCtxExample 1).2.rest = 1 ∧
    (Context.get_tpm_property emptyCountingCapOracle
      (Context.get_tpm_property emptyCountingCapOracle countingCtxExample 1).2 1).2.rest = 2 ∧
    (Context.get_tpm_property emptyCountingCapOracle countingCtxExample 1).1 =
      Except.ok none ∧
    (Context.get_tpm_property emptyCountingCapOracle
      (Context.get_tpm_property emptyCountingCapOracle countingCtxExample 1).2 1).1 =
      Except.ok none ∧
    ¬ (2 : Nat) ≤ 1 := by
  refine ⟨rfl, rfl, rfl, rfl, by decide⟩

/-- C8 (amended): when the first `get_tpm_property` call returns a present
value — `Ok(Some v)` — the tag is cached, and a second call on the
resulting Context returns the identical value with the Context unchanged
and without issuing any capability query: the conclusion holds for every
oracle `g2`, so no query can have been consulted. -/
theorem get_tpm_property_cached_second_call {ρ : Type}
    (g1 g2 : Nat → Nat → Nat → ρ → Except Error (CapabilityData × Bool) × ρ)
    (ctx ctx' : Context ρ) (property v : Nat)
    (h1 : Context.get_tpm_property g1 ctx property = (Except.ok (some v), ctx')) :
    Context.get_tpm_property g2 ctx' property = (Except.ok (some v), ctx') := by
  have hcached : cacheGet ctx'.cached_tpm_properties property = some v := by
    unfold Context.get_tpm_property at h1
    cases hc : cacheGet ctx.cached_tpm_properties property with
    | some val =>
      rw [hc] at h1
      injection h1 with hres hctx
      injection hres with hsome
      injection hsome with hval
      rw [hctx, hval] at hc
      exact hc
    | none =>
      rw [hc] at h1
      cases hr : g1 CapabilityType_TpmProperties property 4 ctx.rest with
      | mk r s' =>
        cases r with
        | error e =>
          simp only [Context.execute_without_session, Context.execute_with_sessions,
            Context.set_sessions, hr] at h1
          injection h1 with hres hctx
          exact Except.noConfusion hres
        | ok pair =>
          cases pair with
          | mk capD mored =>
            cases capD with
            | TpmProperties props =>
              simp only [Context.execute_without_session, Context.execute_with_sessions,
                Context.set_sessions, hr] at h1
              cases hc2 : cacheGet
                  (props.foldl (fun acc tp => cacheInsert acc tp.1 tp.2)
                    ctx.cached_tpm_properties) property with
              | some val =>
                rw [hc2] at h1
                injection h1 with hres hctx
                injection hres with hsome
                injection hsome with hval
                rw [← hctx]
                rw [hval] at hc2
                exact hc2
              | none =>
                rw [hc2] at h1
                injection h1 with hres hctx
                injection hres with hsome
                exact Option.noConfusion hsome
            | Other kind =>
              simp only [Context.execute_without_session, Context.execute_with_sessions,
                Context.set_sessions, hr] at h1
              injection h1 with hres hctx
              exact Except.noConfusion hres
  unfold Context.get_tpm_property
  rw [hcached]

/-- A capability oracle that reports property 1 with value 5. -/
def fetchingCapOracle :
    Nat → Nat → Nat → Unit → Except Error (CapabilityData × Bool) × Unit :=
  fun _ _ _ u => (Except.ok (CapabilityData.TpmProperties [(1, 5)], false), u)

/-- A capability oracle that always fails; if it were consulted the call
would return its error. -/
def failingCapOracle :
    Nat → Nat → Nat → Unit → Except Error (CapabilityData × Bool) × Unit :=
  fun _ _ _ u => (Except.error (Error.Tss2Error 0x101), u)

/-- The Context state after a first `get_tpm_property` for property 1
against `fetchingCapOracle`: the tag is cached at 5. -/
def cachedCtxAfterExample : Context Unit :=
  { sessions := (none, none, none), cached_tpm_properties := [(1, 5)], rest := () }

/-- C8 witness: after a first call that returned `Ok(Some 5)` for property
1, the second call — run against an always-failing oracle, so it provably
issues no query — returns the identical value and leaves the Context
unchanged. -/
theorem get_tpm_property_cached_second_call_witness :
    Context.get_tpm_property failingCapOracle cachedCtxAfterExample 1 =
      (Except.ok (some 5), cachedCtxAfterExample) :=
  get_tpm_property_cached_second_call fetchingCapOracle failingCapOracle
    unitContextExample cachedCtxAfterExample 1 5 rfl

end TssEsapi
